import Mathlib

/-!
# SpaceSystemRenderStage: a shallow embedding

The render stage of `SoA/SpaceSystemRenderStage.cpp` is embedded as pure
functions that return the sequence of calls the C++ code issues against its
collaborators (GL, the component renderers, the sprite batch, the viewer).
Double and single precision numbers are modelled by exact rationals.
-/

namespace SoA

/-! ## Data model -/

abbrev EntityID := Nat
abbrev ComponentID := Nat

/-- Three-component vector (`f64v3` and `f32v3`), over exact rationals. -/
structure F64v3 where
  x : ℚ
  y : ℚ
  z : ℚ
deriving DecidableEq

instance : Sub F64v3 := ⟨fun a b => ⟨a.x - b.x, a.y - b.y, a.z - b.z⟩⟩
instance : Add F64v3 := ⟨fun a b => ⟨a.x + b.x, a.y + b.y, a.z + b.z⟩⟩

/-- A non-negative real number kept exactly through its square.  It stands for
the value `glm::length` returns: the square root of `sq`. -/
structure Dist where
  sq : ℚ
deriving DecidableEq

/-- The comparison `a < b` of two non-negative reals, decided on their squares. -/
instance : LT Dist := ⟨fun a b => a.sq < b.sq⟩
instance : LE Dist := ⟨fun a b => a.sq ≤ b.sq⟩
instance (a b : Dist) : Decidable (a < b) := inferInstanceAs (Decidable (a.sq < b.sq))
instance (a b : Dist) : Decidable (a ≤ b) := inferInstanceAs (Decidable (a.sq ≤ b.sq))

/-- The Euclidean norm `glm::length(v)`, i.e. the square root of
`x*x + y*y + z*z`. -/
def length (v : F64v3) : Dist := ⟨v.x * v.x + v.y * v.y + v.z * v.z⟩

/-- The literal `9999999999999999.0` that `closestDist` starts from. -/
def INITIAL_CLOSEST_DIST : Dist := ⟨9999999999999999 * 9999999999999999⟩

structure NamePositionComponent where
  position : F64v3
  name : String
deriving DecidableEq

structure SpaceLightComponent where
  parentNpId : ComponentID
deriving DecidableEq

structure SphericalTerrainComponent where
  namePositionComponent : ComponentID
deriving DecidableEq

/-- Quaternion `f64q`. -/
structure F64q where
  x : ℚ
  y : ℚ
  z : ℚ
  w : ℚ
deriving DecidableEq

/-- Two-component vector `f32v2`. -/
structure F32v2 where
  x : ℚ
  y : ℚ
deriving DecidableEq

/-- Colour `ColorRGBA8` (`color4`), with every channel a `ui8`. -/
structure ColorRGBA8 where
  r : Nat
  g : Nat
  b : Nat
  a : Nat
deriving DecidableEq

structure AxisRotationComponent where
  currentOrientation : F64q
deriving DecidableEq

structure OrbitComponent where
  parentNpId : ComponentID
  pathColor : ColorRGBA8
deriving DecidableEq

/-- The far-terrain component; the render stage only hands it on. -/
structure FarTerrainComponent where
  data : Nat
deriving DecidableEq

/-- The entry `MainMenuSystemViewer::BodyArData` of one body. -/
structure BodyArData where
  hoverTime : ℚ
  selectorSize : ℚ
  inFrustum : Bool
  isLandSelected : Bool
  selectedPos : F64v3
deriving DecidableEq

/-- The viewer: the lookup `finBodyAr` (`none` is `nullptr`) and the two static
constants of the class, whose values are not in the sources. -/
structure MainMenuSystemViewer where
  finBodyAr : EntityID → Option BodyArData
  MIN_SELECTOR_SIZE : ℚ
  MAX_SELECTOR_SIZE : ℚ

/-- The part of `Camera` the render stage uses besides its matrices. -/
structure Camera where
  getPosition : F64v3
  worldToScreenPoint : F64v3 → F64v3

/-- Library functions outside rational arithmetic, taken as given: `cos`,
the constant `M_PI` and the rotation of a vector by a quaternion. -/
structure Numerics where
  cos : ℚ → ℚ
  M_PI : ℚ
  rotate : F64q → F64v3 → F64v3

structure SpriteBatch where
  isDynamic : Bool
  doInit : Bool
deriving DecidableEq

structure SpriteFont where
  font : String
  size : Nat
deriving DecidableEq

inductive DepthState where
  | FULL
  | READ
deriving DecidableEq

/-- Modelled from the spec: the `vcore::ComponentTable` class of Vorb, whose
declaration is missing; "associative storage mapping an entity identifier to a
component value, enumerable in insertion order", with lookup by entity and by
component id.  Component ids are the 1-based positions in insertion order and
id 0 is the null id, which holds the default component. -/
structure ComponentTable (T : Type) where
  defaultData : T
  components : List (EntityID × T)

namespace ComponentTable

variable {T : Type}

/-- Lookup by component id, `get(ComponentID)`; the null id gives the default
component (an id past the end is undefined behaviour in C++ and reads the
default component here). -/
def get (t : ComponentTable T) (cID : ComponentID) : T :=
  match cID with
  | 0 => t.defaultData
  | n + 1 => match t.components.get? n with
    | some p => p.2
    | none => t.defaultData

/-- Position of the first entry of entity `eID`, counted from `k`. -/
def findID (eID : EntityID) : List (EntityID × T) → ComponentID → ComponentID
  | [], _ => 0
  | p :: rest, k => if p.1 = eID then k else findID eID rest (k + 1)

/-- The component id of an entity, `getComponentID(EntityID)`; 0 when the entity
has no component in the table. -/
def getComponentID (t : ComponentTable T) (eID : EntityID) : ComponentID :=
  findID eID t.components 1

/-- Lookup by entity, `getFromEntity(EntityID)`. -/
def getFromEntity (t : ComponentTable T) (eID : EntityID) : T :=
  t.get (t.getComponentID eID)

end ComponentTable

/-- The part of `SpaceSystem` the render stage reads. -/
structure SpaceSystem where
  m_namePositionCT : ComponentTable NamePositionComponent
  m_axisRotationCT : ComponentTable AxisRotationComponent
  m_orbitCT : ComponentTable OrbitComponent
  m_sphericalTerrainCT : ComponentTable SphericalTerrainComponent
  m_farTerrainCT : ComponentTable FarTerrainComponent
  m_spaceLightCT : ComponentTable SpaceLightComponent

/-! ## getBrightestLight -/

/-- The distance `dist` computed in the body of the loop of `getBrightestLight`
for the light `l`. -/
def lightDist (ss : SpaceSystem) (cmp : SphericalTerrainComponent)
    (l : SpaceLightComponent) : Dist :=
  let npCmp := ss.m_namePositionCT.get l.parentNpId
  length (npCmp.position - (ss.m_namePositionCT.get cmp.namePositionComponent).position)

/-- The loop of `getBrightestLight` over the remaining entries of
`m_spaceLightCT`, on the loop state `(rv, closestDist)`. -/
def getBrightestLightLoop (ss : SpaceSystem) (cmp : SphericalTerrainComponent) :
    List (EntityID × SpaceLightComponent) → Option SpaceLightComponent × Dist →
    Option SpaceLightComponent × Dist
  | [], st => st
  | it :: rest, (rv, closestDist) =>
    let dist := lightDist ss cmp it.2
    if dist < closestDist then
      getBrightestLightLoop ss cmp rest (some it.2, dist)
    else
      getBrightestLightLoop ss cmp rest (rv, closestDist)

/-- `SpaceSystemRenderStage::getBrightestLight(cmp, pos)`: the returned pointer
(`none` is `nullptr`) together with the value of the `OUT` parameter `pos` after
the call.  The body never assigns `pos`, so it comes back as it went in. -/
def getBrightestLight (ss : SpaceSystem) (cmp : SphericalTerrainComponent) (pos : F64v3) :
    Option SpaceLightComponent × F64v3 :=
  let rv := (getBrightestLightLoop ss cmp ss.m_spaceLightCT.components
    (none, INITIAL_CLOSEST_DIST)).1
  (rv, pos)

/-! ## Helpers of Vorb used by the render stage -/

/-- Modelled from the spec: the helper `hermite` of `Vorb/utils.h`, which is
missing; the cubic smoothstep `3t^2 - 2t^3`. -/
def hermite (t : ℚ) : ℚ := 3 * t * t - 2 * t * t * t

/-- Conversion of a number to `ui8`: truncation, then the low eight bits. -/
def toUI8 (q : ℚ) : Nat := (Int.toNat ⌊q⌋) % 256

/-- One channel of the linear interpolation from `a` to `b`. -/
def lerpChannel (a b : Nat) (t : ℚ) : Nat := toUI8 ((a : ℚ) + ((b : ℚ) - (a : ℚ)) * t)

/-- Modelled from the spec: `ColorRGBA8::lerp` of Vorb, which is missing; the
colour interpolated from `c1` (at `t = 0`) towards `c2` (at `t = 1`), channel by
channel. -/
def ColorRGBA8.lerp (c1 c2 : ColorRGBA8) (t : ℚ) : ColorRGBA8 :=
  ⟨lerpChannel c1.r c2.r t, lerpChannel c1.g c2.g t, lerpChannel c1.b c2.b t,
    lerpChannel c1.a c2.a t⟩

/-- Modelled from the spec: the constants of `Vorb/colors.h`, which is missing. -/
def color.White : ColorRGBA8 := ⟨255, 255, 255, 255⟩

/-- Modelled from the spec: the "fixed default accent color" of `Vorb/colors.h`,
which is missing. -/
def color.Aquamarine : ColorRGBA8 := ⟨127, 255, 212, 255⟩

/-- Modelled from the spec: the constant `color::Red` of `Vorb/colors.h`, which
is missing. -/
def color.Red : ColorRGBA8 := ⟨255, 0, 0, 255⟩

/-! ## The render stage -/

/-- A call the render stage issues to one of its collaborators.  Calls made in
a loop over a component table carry the entity `e` of the entry they are made
for.  Arguments that are the same in every call of a kind (the camera, the
colour program, the matrix `wvp`, the selector texture, the font) are left
out. -/
inductive Call where
  | glEnableCullFace
  | sphericalTerrainDraw (e : EntityID) (cmp : SphericalTerrainComponent) (lightPos : F64v3)
      (lightCmp : Option SpaceLightComponent) (npCmp : NamePositionComponent)
      (arCmp : AxisRotationComponent)
  | farTerrainDraw (e : EntityID) (cmp : FarTerrainComponent) (lightPos : F64v3)
      (lightCmp : Option SpaceLightComponent) (arCmp : AxisRotationComponent)
  | depthStateSet (s : DepthState)
  | programUse
  | enableVertexAttribArrays
  | glDepthMask (flag : Bool)
  | glLineWidth (width : ℚ)
  | finBodyAr (e : EntityID)
  | drawPath (e : EntityID) (cmp : OrbitComponent) (npCmp : NamePositionComponent)
      (camPos : F64v3) (alpha : ℚ) (parentNpCmp : Option NamePositionComponent)
  | disableVertexAttribArrays
  | programUnuse
  | newSpriteBatch (isDynamic : Bool) (doInit : Bool)
  | newSpriteFont (font : String) (size : Nat)
  | spriteBatchBegin
  | drawIndicator (e : EntityID) (position : F32v2) (size : F32v2) (rotation : ℚ)
      (tint : ColorRGBA8) (depth : ℚ)
  | drawString (e : EntityID) (s : String) (position : F32v2) (scaling : F32v2)
      (tint : ColorRGBA8) (depth : ℚ)
  | drawLandSelector (e : EntityID) (position : F32v2) (size : F32v2) (rotation : ℚ)
      (tint : ColorRGBA8) (depth : ℚ)
  | spriteBatchEnd
  | renderBatch
deriving DecidableEq

/-- The fields of `SpaceSystemRenderStage`, with the function-local static `dt`
of `drawHud`.  A null pointer is `none`. -/
structure SpaceSystemRenderStage where
  m_viewport : Nat × Nat
  m_spaceSystem : SpaceSystem
  m_mainMenuSystemViewer : Option MainMenuSystemViewer
  m_camera : Camera
  m_voxelCamera : Option Camera
  m_spriteBatch : Option SpriteBatch
  m_spriteFont : Option SpriteFont
  dt : ℚ

/-- The local `std::map<vcore::EntityID, SpaceLightComponent*> lightCache` of
`drawBodies`; `operator[]` on a missing key gives a null pointer. -/
abbrev LightCache := EntityID → Option SpaceLightComponent

/-- The first loop of `drawBodies`, over the remaining entries of
`m_sphericalTerrainCT`, on the locals `(lightPos, lightCache)`. -/
def drawBodiesSpherical (ss : SpaceSystem) :
    List (EntityID × SphericalTerrainComponent) → F64v3 × LightCache →
    (F64v3 × LightCache) × List Call
  | [], s => (s, [])
  | it :: rest, (lightPos, lightCache) =>
    let cmp := it.2
    let r := getBrightestLight ss cmp lightPos
    let lightCmp := r.1
    let lightPos := r.2
    let lightCache := Function.update lightCache it.1 lightCmp
    let c := Call.sphericalTerrainDraw it.1 cmp lightPos lightCmp
      (ss.m_namePositionCT.getFromEntity it.1) (ss.m_axisRotationCT.getFromEntity it.1)
    let out := drawBodiesSpherical ss rest (lightPos, lightCache)
    (out.1, c :: out.2)

/-- The second loop of `drawBodies`, over the entries of `m_farTerrainCT`. -/
def drawBodiesFar (ss : SpaceSystem) (lightPos : F64v3) (lightCache : LightCache) :
    List (EntityID × FarTerrainComponent) → List Call
  | [] => []
  | it :: rest =>
    let cmp := it.2
    let lightCmp := lightCache it.1
    Call.farTerrainDraw it.1 cmp lightPos lightCmp (ss.m_axisRotationCT.getFromEntity it.1)
      :: drawBodiesFar ss lightPos lightCache rest

/-- `SpaceSystemRenderStage::drawBodies`; `lightPos0` is the value the
uninitialised local `lightPos` starts with. -/
def drawBodies (lightPos0 : F64v3) (st : SpaceSystemRenderStage) : List Call :=
  let ss := st.m_spaceSystem
  let out := drawBodiesSpherical ss ss.m_sphericalTerrainCT.components (lightPos0, fun _ => none)
  let far :=
    match st.m_voxelCamera with
    | some _ => drawBodiesFar ss out.1.1 out.1.2 ss.m_farTerrainCT.components
    | none => []
  [Call.glEnableCullFace] ++ out.2 ++ far ++ [Call.depthStateSet DepthState.FULL]

/-- The call of `m_orbitComponentRenderer.drawPath` for one entry of the orbit
table, with or without the parent position. -/
def drawPathCall (st : SpaceSystemRenderStage) (it : EntityID × OrbitComponent) (alpha : ℚ) :
    Call :=
  let cmp := it.2
  let np := st.m_spaceSystem.m_namePositionCT
  if cmp.parentNpId ≠ 0 then
    Call.drawPath it.1 cmp (np.getFromEntity it.1) st.m_camera.getPosition alpha
      (some (np.get cmp.parentNpId))
  else
    Call.drawPath it.1 cmp (np.getFromEntity it.1) st.m_camera.getPosition alpha none

/-- The "interpolated alpha" of `drawPaths` for a body with AR data:
`0.15 + 0.85 * hermite(bodyArData->hoverTime)`. -/
def interpolatedAlpha (hoverTime : ℚ) : ℚ := 0.15 + 0.85 * hermite hoverTime

/-- The loop of `drawPaths` over the remaining entries of `m_orbitCT`. -/
def drawPathsLoop (st : SpaceSystemRenderStage) : List (EntityID × OrbitComponent) → List Call
  | [] => []
  | it :: rest =>
    match st.m_mainMenuSystemViewer with
    | some viewer =>
      match viewer.finBodyAr it.1 with
      | none => Call.finBodyAr it.1 :: drawPathsLoop st rest
      | some bodyArData =>
        let alpha := interpolatedAlpha bodyArData.hoverTime
        Call.finBodyAr it.1 :: drawPathCall st it alpha :: drawPathsLoop st rest
    | none => drawPathCall st it 0.15 :: drawPathsLoop st rest

/-- `SpaceSystemRenderStage::drawPaths`. -/
def drawPaths (st : SpaceSystemRenderStage) : List Call :=
  [Call.depthStateSet DepthState.READ, Call.programUse, Call.enableVertexAttribArrays,
    Call.glDepthMask false, Call.glLineWidth 3]
  ++ drawPathsLoop st st.m_spaceSystem.m_orbitCT.components
  ++ [Call.disableVertexAttribArrays, Call.programUnuse, Call.glDepthMask true]

/-- The colour `textColor` that `drawHud` computes for entity `e`. -/
def hudTextColor (ss : SpaceSystem) (e : EntityID) (interpolator : ℚ) : ColorRGBA8 :=
  let componentID := ss.m_orbitCT.getComponentID e
  if componentID ≠ 0 then
    let tcolor := (ss.m_orbitCT.get componentID).pathColor
    let targetColor : ColorRGBA8 := ⟨tcolor.r, tcolor.g, tcolor.b, tcolor.a⟩
    ColorRGBA8.lerp color.White targetColor interpolator
  else
    ColorRGBA8.lerp color.White color.Aquamarine interpolator

/-- The constant `ROTATION_FACTOR` of `drawHud`. -/
def ROTATION_FACTOR (nm : Numerics) : ℚ := nm.M_PI * 2 + nm.M_PI / 4

/-- The indicator and the name text of one body (the block guarded by
`selectorSize < MAX_SELECTOR_SIZE`). -/
def drawHudIndicator (nm : Numerics) (viewer : MainMenuSystemViewer)
    (it : EntityID × NamePositionComponent) (xyScreenCoords : F32v2) (depth : ℚ)
    (interpolator : ℚ) (textColor : ColorRGBA8) (selectorSize : ℚ) : List Call :=
  let textOffset : F32v2 := ⟨selectorSize / 2, -selectorSize / 2⟩
  let textScale : ℚ := (((selectorSize - viewer.MIN_SELECTOR_SIZE) /
    (viewer.MAX_SELECTOR_SIZE - viewer.MIN_SELECTOR_SIZE)) * 0.5 + 0.5) * 0.6
  [Call.drawIndicator it.1 xyScreenCoords ⟨selectorSize, selectorSize⟩
      (interpolator * ROTATION_FACTOR nm) textColor depth,
    Call.drawString it.1 it.2.name
      ⟨xyScreenCoords.x + textOffset.x, xyScreenCoords.y + textOffset.y⟩
      ⟨textScale, textScale⟩ textColor depth]

/-- The land selector of one body (the block guarded by `isLandSelected`). -/
def drawHudLandSelector (nm : Numerics) (st : SpaceSystemRenderStage) (dt : ℚ)
    (it : EntityID × NamePositionComponent) (bodyArData : BodyArData) : List Call :=
  let ss := st.m_spaceSystem
  let componentID := ss.m_axisRotationCT.getComponentID it.1
  let selectedPos :=
    if componentID ≠ 0 then
      nm.rotate (ss.m_axisRotationCT.get componentID).currentOrientation bodyArData.selectedPos
    else bodyArData.selectedPos
  let relativePos := (it.2.position + selectedPos) - st.m_camera.getPosition
  let screenCoords := st.m_camera.worldToScreenPoint relativePos
  let xyScreenCoords : F32v2 :=
    ⟨screenCoords.x * st.m_viewport.1, screenCoords.y * st.m_viewport.2⟩
  let sColor : ColorRGBA8 := { color.Red with a := 155 }
  let size : ℚ := 22 + nm.cos (dt * 8) * 4
  [Call.drawLandSelector it.1 xyScreenCoords ⟨size, size⟩ (dt * ROTATION_FACTOR nm) sColor 0]

/-- The body of the loop of `drawHud` for one entry of `m_namePositionCT`. -/
def drawHudBody (nm : Numerics) (st : SpaceSystemRenderStage) (viewer : MainMenuSystemViewer)
    (dt : ℚ) (it : EntityID × NamePositionComponent) : List Call :=
  Call.finBodyAr it.1 ::
  match viewer.finBodyAr it.1 with
  | none => []
  | some bodyArData =>
    let position := it.2.position
    let relativePos := position - st.m_camera.getPosition
    let hoverTime := bodyArData.hoverTime
    if bodyArData.inFrustum then
      let screenCoords := st.m_camera.worldToScreenPoint relativePos
      let xyScreenCoords : F32v2 :=
        ⟨screenCoords.x * st.m_viewport.1, screenCoords.y * st.m_viewport.2⟩
      let interpolator := hermite hoverTime
      let textColor := hudTextColor st.m_spaceSystem it.1 interpolator
      let selectorSize := bodyArData.selectorSize
      (if selectorSize < viewer.MAX_SELECTOR_SIZE then
        drawHudIndicator nm viewer it xyScreenCoords screenCoords.z interpolator textColor
          selectorSize
      else [])
      ++ (if bodyArData.isLandSelected then drawHudLandSelector nm st dt it bodyArData else [])
    else []

/-- The loop of `drawHud` over the remaining entries of `m_namePositionCT`. -/
def drawHudLoop (nm : Numerics) (st : SpaceSystemRenderStage) (viewer : MainMenuSystemViewer)
    (dt : ℚ) : List (EntityID × NamePositionComponent) → List Call
  | [] => []
  | it :: rest => drawHudBody nm st viewer dt it ++ drawHudLoop nm st viewer dt rest

/-- `SpaceSystemRenderStage::drawHud`: the stage after the call and the calls
issued. -/
def drawHud (nm : Numerics) (st : SpaceSystemRenderStage) : SpaceSystemRenderStage × List Call :=
  match st.m_mainMenuSystemViewer with
  | none => (st, [])
  | some viewer =>
    let dt := st.dt + 0.01
    let alloc : Bool := st.m_spriteBatch.isNone
    let st1 : SpaceSystemRenderStage :=
      if alloc then
        { st with m_spriteBatch := some ⟨true, true⟩,
                  m_spriteFont := some ⟨"Fonts/orbitron_bold-webfont.ttf", 32⟩, dt := dt }
      else { st with dt := dt }
    let allocCalls : List Call :=
      if alloc then
        [Call.newSpriteBatch true true, Call.newSpriteFont "Fonts/orbitron_bold-webfont.ttf" 32]
      else []
    (st1, allocCalls ++ [Call.spriteBatchBegin]
      ++ drawHudLoop nm st viewer dt st.m_spaceSystem.m_namePositionCT.components
      ++ [Call.spriteBatchEnd, Call.renderBatch, Call.depthStateSet DepthState.FULL])

/-- `SpaceSystemRenderStage::draw`: the stage after the call and the calls
issued. -/
def draw (nm : Numerics) (lightPos0 : F64v3) (st : SpaceSystemRenderStage) :
    SpaceSystemRenderStage × List Call :=
  let bodies := drawBodies lightPos0 st
  if true || st.m_mainMenuSystemViewer.isSome then
    let paths := drawPaths st
    let hud := drawHud nm st
    (hud.1, bodies ++ paths ++ hud.2)
  else
    (st, bodies)

/-! ## GL state -/

/-- The GL global state the path pass touches. -/
structure GLState where
  programInUse : Bool
  vertexAttribArraysEnabled : Bool
  depthMask : Bool
  cullFace : Bool
  lineWidth : ℚ

/-- The effect on the GL state of the calls whose code is outside the sources
(`DepthState::set`, the component renderers, the sprite batch). -/
structure GLEffects where
  effect : Call → GLState → GLState

/-- The effect of one call on the GL state. -/
def glStep (fx : GLEffects) (s : GLState) (c : Call) : GLState :=
  match c with
  | Call.glEnableCullFace => { s with cullFace := true }
  | Call.programUse => { s with programInUse := true }
  | Call.programUnuse => { s with programInUse := false }
  | Call.enableVertexAttribArrays => { s with vertexAttribArraysEnabled := true }
  | Call.disableVertexAttribArrays => { s with vertexAttribArraysEnabled := false }
  | Call.glDepthMask flag => { s with depthMask := flag }
  | Call.glLineWidth width => { s with lineWidth := width }
  | Call.finBodyAr _ => s
  | c => fx.effect c s

/-- The GL state after a sequence of calls. -/
def glRun (fx : GLEffects) (s : GLState) (cs : List Call) : GLState :=
  cs.foldl (glStep fx) s

/-- The state "program bound, attribute arrays enabled, depth writes off". -/
def GLState.pathReady (s : GLState) : Prop :=
  s.programInUse = true ∧ s.vertexAttribArraysEnabled = true ∧ s.depthMask = false

/-- The state "program unbound, attribute arrays disabled, depth writes on". -/
def GLState.pathRestored (s : GLState) : Prop :=
  s.programInUse = false ∧ s.vertexAttribArraysEnabled = false ∧ s.depthMask = true

/-- A call leaves the program binding, the attribute arrays and the depth mask
as they are. -/
def GLEffects.keepsPathState (fx : GLEffects) (c : Call) : Prop :=
  ∀ s : GLState, (fx.effect c s).programInUse = s.programInUse ∧
    (fx.effect c s).vertexAttribArraysEnabled = s.vertexAttribArraysEnabled ∧
    (fx.effect c s).depthMask = s.depthMask

/-! ## Observations on a sequence of calls -/

/-- The entity and the alpha of a `drawPath` call. -/
def Call.pathAlpha : Call → Option (EntityID × ℚ)
  | Call.drawPath e _ _ _ alpha _ => some (e, alpha)
  | _ => none

/-- The call is a `drawPath` call. -/
def Call.isDrawPath (c : Call) : Bool := c.pathAlpha.isSome

/-- Running the calls `cs` from the GL state `s`, every `drawPath` call is made
in a state with the program bound, the attribute arrays enabled and depth
writes off. -/
def pathDrawsReady (fx : GLEffects) : GLState → List Call → Prop
  | _, [] => True
  | s, c :: cs => (c.isDrawPath = true → s.pathReady) ∧ pathDrawsReady fx (glStep fx s c) cs

/-- The call is a draw of the sprite batch (`draw` or `drawString`). -/
def Call.isSpriteDraw : Call → Bool
  | Call.drawIndicator _ _ _ _ _ _ => true
  | Call.drawString _ _ _ _ _ _ => true
  | Call.drawLandSelector _ _ _ _ _ _ => true
  | _ => false

/-- The entity a sprite-batch draw is made for. -/
def Call.spriteEntity : Call → Option EntityID
  | Call.drawIndicator e _ _ _ _ _ => some e
  | Call.drawString e _ _ _ _ _ => some e
  | Call.drawLandSelector e _ _ _ _ _ => some e
  | _ => none

/-- The entity of an indicator draw. -/
def Call.indicatorEntity : Call → Option EntityID
  | Call.drawIndicator e _ _ _ _ _ => some e
  | _ => none

/-- The entity of a name-text draw. -/
def Call.stringEntity : Call → Option EntityID
  | Call.drawString e _ _ _ _ _ => some e
  | _ => none

/-- The entity and the colour of an indicator or name-text draw. -/
def Call.textTint : Call → Option (EntityID × ColorRGBA8)
  | Call.drawIndicator e _ _ _ tint _ => some (e, tint)
  | Call.drawString e _ _ _ tint _ => some (e, tint)
  | _ => none

/-- The entity and the light of a spherical-terrain draw. -/
def Call.sphericalLight : Call → Option (EntityID × Option SpaceLightComponent)
  | Call.sphericalTerrainDraw e _ _ lightCmp _ _ => some (e, lightCmp)
  | _ => none

/-- The entity and the light of a far-terrain draw. -/
def Call.farLight : Call → Option (EntityID × Option SpaceLightComponent)
  | Call.farTerrainDraw e _ _ lightCmp _ => some (e, lightCmp)
  | _ => none

/-- The call allocates a HUD resource (`new SpriteBatch`, `new SpriteFont`). -/
def Call.isAllocation : Call → Bool
  | Call.newSpriteBatch _ _ => true
  | Call.newSpriteFont _ _ => true
  | _ => false

/-! ## Sequences of calls on the stage -/

/-- A public entry point called on the stage. -/
inductive StageCall where
  | draw
  | drawHud
deriving DecidableEq

/-- One call on the stage. -/
def runCall (nm : Numerics) (lightPos0 : F64v3) (st : SpaceSystemRenderStage) :
    StageCall → SpaceSystemRenderStage × List Call
  | StageCall.draw => draw nm lightPos0 st
  | StageCall.drawHud => drawHud nm st

/-- A sequence of calls on the stage, one after the other. -/
def runCalls (nm : Numerics) (lightPos0 : F64v3) :
    SpaceSystemRenderStage → List StageCall → SpaceSystemRenderStage × List Call
  | st, [] => (st, [])
  | st, op :: ops =>
    let r := runCall nm lightPos0 st op
    let rs := runCalls nm lightPos0 r.1 ops
    (rs.1, r.2 ++ rs.2)

/-- The HUD state "uninitialized": no sprite batch and no font. -/
def SpaceSystemRenderStage.hudUninitialized (st : SpaceSystemRenderStage) : Prop :=
  st.m_spriteBatch = none ∧ st.m_spriteFont = none

/-- The HUD state "ready": sprite batch and font allocated. -/
def SpaceSystemRenderStage.hudReady (st : SpaceSystemRenderStage) : Prop :=
  st.m_spriteBatch.isSome = true ∧ st.m_spriteFont.isSome = true

instance (st : SpaceSystemRenderStage) : Decidable st.hudUninitialized :=
  inferInstanceAs (Decidable (_ ∧ _))

instance (st : SpaceSystemRenderStage) : Decidable st.hudReady :=
  inferInstanceAs (Decidable (_ ∧ _))

/-! ## A small system used for concrete evaluations -/

namespace Sample

/-- Name/position table: a planet at the origin (id 1), a star one unit away
(id 2) and a star at distance `2 * 10^16` (id 3). -/
def namePositions : ComponentTable NamePositionComponent :=
  ⟨⟨⟨0, 0, 0⟩, ""⟩,
    [(1, ⟨⟨0, 0, 0⟩, "Planet"⟩), (2, ⟨⟨1, 0, 0⟩, "Star"⟩),
      (3, ⟨⟨20000000000000000, 0, 0⟩, "FarStar"⟩)]⟩

/-- The terrain component of the planet. -/
def terrain : SphericalTerrainComponent := ⟨1⟩

/-- A system whose only light is the star next to the planet. -/
def nearSystem : SpaceSystem where
  m_namePositionCT := namePositions
  m_axisRotationCT := ⟨⟨⟨0, 0, 0, 1⟩⟩, [(1, ⟨⟨0, 0, 0, 1⟩⟩)]⟩
  m_orbitCT := ⟨⟨0, ⟨0, 0, 0, 0⟩⟩, [(1, ⟨2, ⟨255, 0, 0, 255⟩⟩), (2, ⟨0, ⟨0, 255, 0, 255⟩⟩)]⟩
  m_sphericalTerrainCT := ⟨⟨0⟩, [(1, terrain)]⟩
  m_farTerrainCT := ⟨⟨0⟩, [(1, ⟨0⟩)]⟩
  m_spaceLightCT := ⟨⟨0⟩, [(2, ⟨2⟩)]⟩

/-- A system whose only light is the far star. -/
def farSystem : SpaceSystem :=
  { nearSystem with m_spaceLightCT := ⟨⟨0⟩, [(3, ⟨3⟩)]⟩ }

/-- Camera at the origin with the identity as projection. -/
def camera : Camera := ⟨⟨0, 0, 0⟩, fun p => p⟩

/-- GL effects under which the calls outside the sources change nothing. -/
def glEffects : GLEffects := ⟨fun _ s => s⟩

/-- A GL state with no program bound and depth writes on. -/
def glState : GLState := ⟨false, false, true, false, 1⟩

/-- Stand-ins for the library functions. -/
def numerics : Numerics := ⟨fun _ => 1, 22 / 7, fun _ v => v⟩

/-- AR data of a hovered, visible body with a small selector. -/
def arData (hoverTime selectorSize : ℚ) : BodyArData :=
  ⟨hoverTime, selectorSize, true, false, ⟨0, 0, 0⟩⟩

/-- A viewer that tracks the planet (entity 1) only. -/
def viewer (hoverTime selectorSize : ℚ) : MainMenuSystemViewer :=
  ⟨fun e => if e = 1 then some (arData hoverTime selectorSize) else none, 12, 160⟩

/-- A stage on `nearSystem` with the given viewer, its HUD uninitialized. -/
def stage (v : Option MainMenuSystemViewer) : SpaceSystemRenderStage :=
  ⟨(800, 600), nearSystem, v, camera, some camera, none, none, 0⟩

end Sample

/-! ## getBrightestLight: results -/

theorem Dist.lt_def (a b : Dist) : a < b ↔ a.sq < b.sq := Iff.rfl

theorem Dist.le_def (a b : Dist) : a ≤ b ↔ a.sq ≤ b.sq := Iff.rfl

theorem F64v3.sub_def (a b : F64v3) : a - b = ⟨a.x - b.x, a.y - b.y, a.z - b.z⟩ := rfl

theorem F64v3.add_def (a b : F64v3) : a + b = ⟨a.x + b.x, a.y + b.y, a.z + b.z⟩ := rfl

theorem getBrightestLight_pos_unchanged (ss : SpaceSystem) (cmp : SphericalTerrainComponent)
    (pos : F64v3) : (getBrightestLight ss cmp pos).2 = pos := rfl

/-- C1: with one light registered, at distance `2 * 10^16` from the terrain,
`getBrightestLight` returns the null pointer. -/
theorem getBrightestLight_far_light_null :
    Sample.farSystem.m_spaceLightCT.components = [(3, ⟨3⟩)] ∧
    (getBrightestLight Sample.farSystem Sample.terrain ⟨0, 0, 0⟩).1 = none := by
  refine ⟨rfl, ?_⟩
  simp [getBrightestLight, getBrightestLightLoop, lightDist, Sample.farSystem,
    Sample.nearSystem, Sample.terrain, Sample.namePositions, ComponentTable.get, length,
    INITIAL_CLOSEST_DIST, Dist.lt_def, F64v3.sub_def]
  norm_num

/-- C2: with the star one unit from the planet as the only light,
`getBrightestLight` returns that light and leaves `pos` at the value it had
before the call, which is not the position of the light. -/
theorem getBrightestLight_pos_not_written :
    getBrightestLight Sample.nearSystem Sample.terrain ⟨0, 0, 0⟩ = (some ⟨2⟩, ⟨0, 0, 0⟩) ∧
    (Sample.nearSystem.m_namePositionCT.get 2).position = ⟨1, 0, 0⟩ ∧
    (⟨0, 0, 0⟩ : F64v3) ≠ ⟨1, 0, 0⟩ := by
  refine ⟨?_, ?_, ?_⟩
  · simp [getBrightestLight, getBrightestLightLoop, lightDist, Sample.nearSystem,
      Sample.terrain, Sample.namePositions, ComponentTable.get, length,
      INITIAL_CLOSEST_DIST, Dist.lt_def, F64v3.sub_def]
    norm_num
  · simp [Sample.nearSystem, Sample.namePositions, ComponentTable.get]
  · simp

theorem getBrightestLightLoop_spec (ss : SpaceSystem) (cmp : SphericalTerrainComponent) :
    ∀ (rest : List (EntityID × SpaceLightComponent)) (rv : Option SpaceLightComponent)
      (d : Dist),
      (∀ it ∈ rest, (getBrightestLightLoop ss cmp rest (rv, d)).2 ≤ lightDist ss cmp it.2) ∧
      (getBrightestLightLoop ss cmp rest (rv, d)).2 ≤ d ∧
      (getBrightestLightLoop ss cmp rest (rv, d) = (rv, d) ∨
        ∃ it ∈ rest, (getBrightestLightLoop ss cmp rest (rv, d)).1 = some it.2 ∧
          (getBrightestLightLoop ss cmp rest (rv, d)).2 = lightDist ss cmp it.2 ∧
          (getBrightestLightLoop ss cmp rest (rv, d)).2 < d) := by
  intro rest
  induction rest with
  | nil =>
    intro rv d
    refine ⟨by simp, ?_, Or.inl rfl⟩
    simp [getBrightestLightLoop, Dist.le_def]
  | cons a rest ih =>
    intro rv d
    by_cases h : lightDist ss cmp a.2 < d
    · have hstep : getBrightestLightLoop ss cmp (a :: rest) (rv, d) =
          getBrightestLightLoop ss cmp rest (some a.2, lightDist ss cmp a.2) := by
        simp [getBrightestLightLoop, h]
      rw [hstep]
      obtain ⟨h1, h2, h3⟩ := ih (some a.2) (lightDist ss cmp a.2)
      refine ⟨?_, ?_, Or.inr ?_⟩
      · intro it hit
        rcases List.mem_cons.1 hit with rfl | hit
        · exact h2
        · exact h1 it hit
      · rw [Dist.le_def] at h2 ⊢
        rw [Dist.lt_def] at h
        exact le_trans h2 (le_of_lt h)
      · rcases h3 with h3 | ⟨it, hit, h4, h5, h6⟩
        · exact ⟨a, List.mem_cons_self _ _, by rw [h3], by rw [h3], by rw [h3]; exact h⟩
        · refine ⟨it, List.mem_cons_of_mem _ hit, h4, h5, ?_⟩
          rw [Dist.lt_def] at h h6 ⊢
          exact lt_trans h6 h
    · have hstep : getBrightestLightLoop ss cmp (a :: rest) (rv, d) =
          getBrightestLightLoop ss cmp rest (rv, d) := by
        simp [getBrightestLightLoop, h]
      rw [hstep]
      obtain ⟨h1, h2, h3⟩ := ih rv d
      refine ⟨?_, h2, ?_⟩
      · intro it hit
        rcases List.mem_cons.1 hit with rfl | hit
        · rw [Dist.le_def] at h2 ⊢
          rw [Dist.lt_def] at h
          exact le_trans h2 (not_lt.1 h)
        · exact h1 it hit
      · rcases h3 with h3 | ⟨it, hit, h4, h5, h6⟩
        · exact Or.inl h3
        · exact Or.inr ⟨it, List.mem_cons_of_mem _ hit, h4, h5, h6⟩

/-- With no light registered `getBrightestLight` returns the null pointer. -/
theorem getBrightestLight_empty (ss : SpaceSystem) (cmp : SphericalTerrainComponent)
    (pos : F64v3) (h : ss.m_spaceLightCT.components = []) :
    (getBrightestLight ss cmp pos).1 = none := by
  simp [getBrightestLight, h, getBrightestLightLoop]

/-- When some registered light is closer than the value `closestDist` starts
from, `getBrightestLight` returns a registered light of minimum distance. -/
theorem getBrightestLight_nearest (ss : SpaceSystem) (cmp : SphericalTerrainComponent)
    (pos : F64v3)
    (h : ∃ it ∈ ss.m_spaceLightCT.components, lightDist ss cmp it.2 < INITIAL_CLOSEST_DIST) :
    ∃ it ∈ ss.m_spaceLightCT.components, (getBrightestLight ss cmp pos).1 = some it.2 ∧
      ∀ other ∈ ss.m_spaceLightCT.components,
        lightDist ss cmp it.2 ≤ lightDist ss cmp other.2 := by
  obtain ⟨h1, _, h3⟩ :=
    getBrightestLightLoop_spec ss cmp ss.m_spaceLightCT.components none INITIAL_CLOSEST_DIST
  obtain ⟨near, hnear, hlt⟩ := h
  rcases h3 with h3 | ⟨it, hit, h4, h5, _⟩
  · exfalso
    have := h1 near hnear
    rw [h3, Dist.le_def] at this
    rw [Dist.lt_def] at hlt
    exact absurd hlt (not_lt.2 this)
  · refine ⟨it, hit, h4, ?_⟩
    intro other hother
    rw [← h5]
    exact h1 other hother

/-- When every registered light is at least as far as the value `closestDist`
starts from, `getBrightestLight` returns the null pointer. -/
theorem getBrightestLight_all_far (ss : SpaceSystem) (cmp : SphericalTerrainComponent)
    (pos : F64v3)
    (h : ∀ it ∈ ss.m_spaceLightCT.components, INITIAL_CLOSEST_DIST ≤ lightDist ss cmp it.2) :
    (getBrightestLight ss cmp pos).1 = none := by
  obtain ⟨_, _, h3⟩ :=
    getBrightestLightLoop_spec ss cmp ss.m_spaceLightCT.components none INITIAL_CLOSEST_DIST
  rcases h3 with h3 | ⟨it, hit, _, h5, h6⟩
  · simp [getBrightestLight, h3]
  · exfalso
    have hfar := h it hit
    rw [h5, Dist.lt_def] at h6
    rw [Dist.le_def] at hfar
    exact absurd h6 (not_lt.2 hfar)

/-! ## Lists of calls -/

theorem filterMap_some_fun {α β : Type} (f : α → β) (l : List α) :
    l.filterMap (fun x => some (f x)) = l.map f := by
  induction l with
  | nil => rfl
  | cons a rest ih => simp [List.filterMap_cons, ih]

theorem filterMap_none_fun {α β : Type} (l : List α) :
    l.filterMap (fun _ => (none : Option β)) = [] := by
  induction l with
  | nil => rfl
  | cons a rest ih => simp [List.filterMap_cons, ih]

/-! ## drawBodies: results -/

theorem drawBodiesSpherical_lightPos (ss : SpaceSystem) :
    ∀ (l : List (EntityID × SphericalTerrainComponent)) (lp : F64v3) (c : LightCache),
      (drawBodiesSpherical ss l (lp, c)).1.1 = lp := by
  intro l
  induction l with
  | nil => intro lp c; rfl
  | cons a rest ih =>
    intro lp c
    simp only [drawBodiesSpherical, getBrightestLight_pos_unchanged]
    exact ih lp _

theorem drawBodiesSpherical_calls (ss : SpaceSystem) :
    ∀ (l : List (EntityID × SphericalTerrainComponent)) (lp : F64v3) (c : LightCache),
      (drawBodiesSpherical ss l (lp, c)).2 =
        l.map (fun it => Call.sphericalTerrainDraw it.1 it.2 lp (getBrightestLight ss it.2 lp).1
          (ss.m_namePositionCT.getFromEntity it.1) (ss.m_axisRotationCT.getFromEntity it.1)) := by
  intro l
  induction l with
  | nil => intro lp c; rfl
  | cons a rest ih =>
    intro lp c
    simp only [drawBodiesSpherical, getBrightestLight_pos_unchanged, List.map_cons]
    rw [ih lp _]

theorem drawBodiesSpherical_cache_other (ss : SpaceSystem) :
    ∀ (l : List (EntityID × SphericalTerrainComponent)) (lp : F64v3) (c : LightCache)
      (e : EntityID), e ∉ l.map Prod.fst → (drawBodiesSpherical ss l (lp, c)).1.2 e = c e := by
  intro l
  induction l with
  | nil => intro lp c e _; rfl
  | cons a rest ih =>
    intro lp c e he
    simp only [List.map_cons, List.mem_cons, not_or] at he
    simp only [drawBodiesSpherical, getBrightestLight_pos_unchanged]
    rw [ih lp _ e he.2]
    exact Function.update_noteq he.1 _ _

theorem drawBodiesSpherical_cache (ss : SpaceSystem) :
    ∀ (l : List (EntityID × SphericalTerrainComponent)) (lp : F64v3) (c : LightCache),
      (l.map Prod.fst).Nodup → ∀ it ∈ l,
        (drawBodiesSpherical ss l (lp, c)).1.2 it.1 = (getBrightestLight ss it.2 lp).1 := by
  intro l
  induction l with
  | nil => intro lp c _ it hit; simp at hit
  | cons a rest ih =>
    intro lp c hnd it hit
    simp only [List.map_cons, List.nodup_cons] at hnd
    simp only [drawBodiesSpherical, getBrightestLight_pos_unchanged]
    rcases List.mem_cons.1 hit with rfl | hit
    · rw [drawBodiesSpherical_cache_other ss rest lp _ _ hnd.1]
      exact Function.update_same _ _ _
    · exact ih lp _ hnd.2 it hit

theorem drawBodiesFar_calls (ss : SpaceSystem) (lp : F64v3) (c : LightCache) :
    ∀ l : List (EntityID × FarTerrainComponent),
      drawBodiesFar ss lp c l =
        l.map (fun it => Call.farTerrainDraw it.1 it.2 lp (c it.1)
          (ss.m_axisRotationCT.getFromEntity it.1)) := by
  intro l
  induction l with
  | nil => rfl
  | cons a rest ih => simp only [drawBodiesFar, List.map_cons, ih]

theorem drawBodies_sphericalLights (lightPos0 : F64v3) (st : SpaceSystemRenderStage) :
    (drawBodies lightPos0 st).filterMap Call.sphericalLight =
      st.m_spaceSystem.m_sphericalTerrainCT.components.map
        (fun it => (it.1, (getBrightestLight st.m_spaceSystem it.2 lightPos0).1)) := by
  unfold drawBodies
  simp only [drawBodiesSpherical_calls, drawBodiesFar_calls, List.filterMap_append]
  cases st.m_voxelCamera <;>
    simp [List.filterMap_map, Function.comp_def, Call.sphericalLight, List.filterMap_cons,
      filterMap_some_fun, filterMap_none_fun]

theorem drawBodies_farLights (lightPos0 : F64v3) (st : SpaceSystemRenderStage) (cam : Camera)
    (hcam : st.m_voxelCamera = some cam) :
    (drawBodies lightPos0 st).filterMap Call.farLight =
      st.m_spaceSystem.m_farTerrainCT.components.map
        (fun it => (it.1, (drawBodiesSpherical st.m_spaceSystem
          st.m_spaceSystem.m_sphericalTerrainCT.components (lightPos0, fun _ => none)).1.2 it.1)) := by
  unfold drawBodies
  simp only [drawBodiesSpherical_calls, drawBodiesFar_calls, List.filterMap_append, hcam]
  simp [List.filterMap_map, Function.comp_def, Call.farLight, List.filterMap_cons,
    filterMap_some_fun, filterMap_none_fun]

/-- C3: in one call of `drawBodies` with a voxel camera, on a spherical-terrain
table with one component per entity, every far-terrain draw for an entity gets
the light that the spherical-terrain draw for that entity got; every
far-terrain component is drawn, and every spherical-terrain component is drawn
with the light `getBrightestLight` resolved for it. -/
theorem drawBodies_far_light_eq_spherical (lightPos0 : F64v3) (st : SpaceSystemRenderStage)
    (cam : Camera) (hcam : st.m_voxelCamera = some cam)
    (hkeys : (st.m_spaceSystem.m_sphericalTerrainCT.components.map Prod.fst).Nodup) :
    (∀ (e : EntityID) (far sph : Option SpaceLightComponent),
      (e, far) ∈ (drawBodies lightPos0 st).filterMap Call.farLight →
      (e, sph) ∈ (drawBodies lightPos0 st).filterMap Call.sphericalLight → far = sph) ∧
    (∀ it ∈ st.m_spaceSystem.m_farTerrainCT.components,
      ∃ far, (it.1, far) ∈ (drawBodies lightPos0 st).filterMap Call.farLight) ∧
    (∀ it ∈ st.m_spaceSystem.m_sphericalTerrainCT.components,
      (it.1, (getBrightestLight st.m_spaceSystem it.2 lightPos0).1) ∈
        (drawBodies lightPos0 st).filterMap Call.sphericalLight) := by
  rw [drawBodies_farLights lightPos0 st cam hcam, drawBodies_sphericalLights]
  refine ⟨?_, ?_, ?_⟩
  · intro e far sph hfar hsph
    obtain ⟨itf, _, hf⟩ := List.mem_map.1 hfar
    obtain ⟨its, hits, hs⟩ := List.mem_map.1 hsph
    simp only [Prod.mk.injEq] at hf hs
    rw [← hf.2, ← hs.2, hf.1, ← hs.1]
    exact drawBodiesSpherical_cache _ _ _ _ hkeys its hits
  · intro it hit
    exact ⟨_, List.mem_map.2 ⟨it, hit, rfl⟩⟩
  · intro it hit
    exact List.mem_map.2 ⟨it, hit, rfl⟩

/-- Witness for C3: the sample stage, which has a voxel camera and one
spherical-terrain component per entity. -/
theorem drawBodies_far_light_eq_spherical_witness :
    (∀ (e : EntityID) (far sph : Option SpaceLightComponent),
      (e, far) ∈ (drawBodies ⟨0, 0, 0⟩ (Sample.stage none)).filterMap Call.farLight →
      (e, sph) ∈ (drawBodies ⟨0, 0, 0⟩ (Sample.stage none)).filterMap Call.sphericalLight →
      far = sph) ∧
    (∀ it ∈ (Sample.stage none).m_spaceSystem.m_farTerrainCT.components,
      ∃ far, (it.1, far) ∈ (drawBodies ⟨0, 0, 0⟩ (Sample.stage none)).filterMap Call.farLight) ∧
    (∀ it ∈ (Sample.stage none).m_spaceSystem.m_sphericalTerrainCT.components,
      (it.1, (getBrightestLight (Sample.stage none).m_spaceSystem it.2 ⟨0, 0, 0⟩).1) ∈
        (drawBodies ⟨0, 0, 0⟩ (Sample.stage none)).filterMap Call.sphericalLight) :=
  drawBodies_far_light_eq_spherical ⟨0, 0, 0⟩ (Sample.stage none) Sample.camera rfl
    (by simp [Sample.stage, Sample.nearSystem])

/-! ## drawPaths: results -/

theorem hermite_mono (s t : ℚ) (hs : 0 ≤ s) (hst : s ≤ t) (ht : t ≤ 1) :
    hermite s ≤ hermite t := by
  unfold hermite
  have h1 : 0 ≤ t - s := sub_nonneg.2 hst
  have h2 : 0 ≤ 1 - t := sub_nonneg.2 ht
  have h3 : 0 ≤ t := le_trans hs hst
  have h4 : s ≤ 1 := le_trans hst ht
  have key : 0 ≤ (t - s) * (3 * (t + s) - 2 * (t * t + t * s + s * s)) := by
    apply mul_nonneg h1
    nlinarith [mul_nonneg h3 h2, mul_nonneg hs (sub_nonneg.2 h4), mul_nonneg h1 h1,
      mul_nonneg hs h3]
  nlinarith [key]

theorem pathAlpha_drawPathCall (st : SpaceSystemRenderStage) (it : EntityID × OrbitComponent)
    (alpha : ℚ) : (drawPathCall st it alpha).pathAlpha = some (it.1, alpha) := by
  unfold drawPathCall
  by_cases h : it.2.parentNpId = 0 <;> simp [h, Call.pathAlpha]

/-- C4: the alpha `drawPaths` gives the path of a body with AR data is
`interpolatedAlpha hoverTime = 0.15 + 0.85 * (3t^2 - 2t^3)`; it is non-decreasing
in the hover time on `[0, 1]`, is `0.15` at hover time 0 and `1` at hover
time 1. -/
theorem interpolatedAlpha_monotone :
    (∀ s t : ℚ, 0 ≤ s → s ≤ t → t ≤ 1 → interpolatedAlpha s ≤ interpolatedAlpha t) ∧
    interpolatedAlpha 0 = 0.15 ∧ interpolatedAlpha 1 = 1 ∧
    (∀ t : ℚ, interpolatedAlpha t = 0.15 + 0.85 * (3 * t ^ 2 - 2 * t ^ 3)) ∧
    (∀ (st : SpaceSystemRenderStage) (viewer : MainMenuSystemViewer)
      (it : EntityID × OrbitComponent) (bodyArData : BodyArData),
      st.m_mainMenuSystemViewer = some viewer → viewer.finBodyAr it.1 = some bodyArData →
      (drawPathsLoop st [it]).filterMap Call.pathAlpha =
        [(it.1, interpolatedAlpha bodyArData.hoverTime)]) := by
  refine ⟨?_, ?_, ?_, ?_, ?_⟩
  · intro s t hs hst ht
    have := hermite_mono s t hs hst ht
    unfold interpolatedAlpha
    linarith
  · norm_num [interpolatedAlpha, hermite]
  · norm_num [interpolatedAlpha, hermite]
  · intro t
    unfold interpolatedAlpha hermite
    ring
  · intro st viewer it bodyArData hv har
    have hfin : (Call.finBodyAr it.1).pathAlpha = none := rfl
    simp [drawPathsLoop, hv, har, List.filterMap_cons, hfin, pathAlpha_drawPathCall]

/-- Witness for C4: hover times `1/4` and `1/2`, and the planet of the sample
stage tracked at hover time `1/2`. -/
theorem interpolatedAlpha_monotone_witness :
    ((0 : ℚ) ≤ 1 / 4 ∧ (1 / 4 : ℚ) ≤ 1 / 2 ∧ (1 / 2 : ℚ) ≤ 1 ∧
      interpolatedAlpha (1 / 4) ≤ interpolatedAlpha (1 / 2)) ∧
    ((Sample.stage (some (Sample.viewer (1 / 2) 20))).m_mainMenuSystemViewer =
        some (Sample.viewer (1 / 2) 20) ∧
      (Sample.viewer (1 / 2) 20).finBodyAr 1 = some (Sample.arData (1 / 2) 20) ∧
      (drawPathsLoop (Sample.stage (some (Sample.viewer (1 / 2) 20)))
          [(1, ⟨2, ⟨255, 0, 0, 255⟩⟩)]).filterMap Call.pathAlpha =
        [(1, interpolatedAlpha (1 / 2))]) :=
  ⟨⟨by norm_num, by norm_num, by norm_num,
      interpolatedAlpha_monotone.1 (1 / 4) (1 / 2) (by norm_num) (by norm_num) (by norm_num)⟩,
    rfl, rfl,
    interpolatedAlpha_monotone.2.2.2.2 (Sample.stage (some (Sample.viewer (1 / 2) 20)))
      (Sample.viewer (1 / 2) 20) (1, ⟨2, ⟨255, 0, 0, 255⟩⟩) (Sample.arData (1 / 2) 20) rfl rfl⟩

theorem drawPathsLoop_no_viewer (st : SpaceSystemRenderStage)
    (hv : st.m_mainMenuSystemViewer = none) :
    ∀ l : List (EntityID × OrbitComponent),
      drawPathsLoop st l = l.map (fun it => drawPathCall st it 0.15) := by
  intro l
  induction l with
  | nil => rfl
  | cons a rest ih => simp only [drawPathsLoop, hv, List.map_cons, ih]

theorem isDrawPath_drawPathCall (st : SpaceSystemRenderStage) (it : EntityID × OrbitComponent)
    (alpha : ℚ) : (drawPathCall st it alpha).isDrawPath = true := by
  simp [Call.isDrawPath, pathAlpha_drawPathCall]

theorem drawBodies_no_path (lightPos0 : F64v3) (st : SpaceSystemRenderStage) :
    (drawBodies lightPos0 st).filterMap Call.pathAlpha = [] := by
  unfold drawBodies
  simp only [drawBodiesSpherical_calls, drawBodiesFar_calls, List.filterMap_append]
  cases st.m_voxelCamera <;>
    simp [List.filterMap_map, Function.comp_def, Call.pathAlpha, List.filterMap_cons,
      filterMap_none_fun]

theorem drawBodies_no_sprite (lightPos0 : F64v3) (st : SpaceSystemRenderStage) :
    (drawBodies lightPos0 st).filter Call.isSpriteDraw = [] := by
  unfold drawBodies
  simp only [drawBodiesSpherical_calls, drawBodiesFar_calls, List.filter_append]
  cases st.m_voxelCamera <;>
    simp [List.filter_map, Function.comp_def, Call.isSpriteDraw, List.filter_cons]

theorem isSpriteDraw_drawPathCall (st : SpaceSystemRenderStage) (it : EntityID × OrbitComponent)
    (alpha : ℚ) : (drawPathCall st it alpha).isSpriteDraw = false := by
  unfold drawPathCall
  by_cases h : it.2.parentNpId = 0 <;> simp [h, Call.isSpriteDraw]

theorem drawPaths_no_viewer_paths (st : SpaceSystemRenderStage)
    (hv : st.m_mainMenuSystemViewer = none) :
    (drawPaths st).filterMap Call.pathAlpha =
      st.m_spaceSystem.m_orbitCT.components.map (fun it => (it.1, (0.15 : ℚ))) := by
  have hloop : ∀ l : List (EntityID × OrbitComponent),
      (l.map (fun it => drawPathCall st it 0.15)).filterMap Call.pathAlpha =
        l.map (fun it => (it.1, (0.15 : ℚ))) := by
    intro l
    induction l with
    | nil => rfl
    | cons a rest ih => simp [List.filterMap_cons, pathAlpha_drawPathCall, ih]
  unfold drawPaths
  rw [drawPathsLoop_no_viewer st hv, List.filterMap_append, List.filterMap_append, hloop]
  simp [Call.pathAlpha]

theorem drawPaths_no_viewer_no_sprite (st : SpaceSystemRenderStage)
    (hv : st.m_mainMenuSystemViewer = none) :
    (drawPaths st).filter Call.isSpriteDraw = [] := by
  have hloop : ∀ l : List (EntityID × OrbitComponent),
      (l.map (fun it => drawPathCall st it 0.15)).filter Call.isSpriteDraw = [] := by
    intro l
    induction l with
    | nil => rfl
    | cons a rest ih => simp [List.filter_cons, isSpriteDraw_drawPathCall, ih]
  unfold drawPaths
  rw [drawPathsLoop_no_viewer st hv, List.filter_append, List.filter_append, hloop]
  simp [Call.isSpriteDraw]

/-- C5: with no viewer, one call of `draw` issues exactly one `drawPath` call
for every entry of the orbit table, in table order and each with alpha 0.15,
`drawHud` issues no call at all, and the whole of `draw` contains no
sprite-batch `draw` or `drawString` call. -/
theorem draw_no_viewer (nm : Numerics) (lightPos0 : F64v3) (st : SpaceSystemRenderStage)
    (hv : st.m_mainMenuSystemViewer = none) :
    (draw nm lightPos0 st).2.filterMap Call.pathAlpha =
      st.m_spaceSystem.m_orbitCT.components.map (fun it => (it.1, (0.15 : ℚ))) ∧
    (drawHud nm st).2 = [] ∧
    (draw nm lightPos0 st).2.filter Call.isSpriteDraw = [] := by
  have hhud : drawHud nm st = (st, []) := by simp [drawHud, hv]
  refine ⟨?_, by rw [hhud], ?_⟩
  · simp [draw, hhud, List.filterMap_append, drawBodies_no_path,
      drawPaths_no_viewer_paths st hv]
  · simp [draw, hhud, List.filter_append, drawBodies_no_sprite,
      drawPaths_no_viewer_no_sprite st hv]

/-- Witness for C5: the sample stage without a viewer. -/
theorem draw_no_viewer_witness :
    (Sample.stage none).m_mainMenuSystemViewer = none ∧
    (draw Sample.numerics ⟨0, 0, 0⟩ (Sample.stage none)).2.filterMap Call.pathAlpha =
      [(1, (0.15 : ℚ)), (2, (0.15 : ℚ))] ∧
    (drawHud Sample.numerics (Sample.stage none)).2 = [] ∧
    (draw Sample.numerics ⟨0, 0, 0⟩ (Sample.stage none)).2.filter Call.isSpriteDraw = [] :=
  ⟨rfl, draw_no_viewer Sample.numerics ⟨0, 0, 0⟩ (Sample.stage none) rfl⟩

theorem drawPathsLoop_tracked (st : SpaceSystemRenderStage) (viewer : MainMenuSystemViewer)
    (hv : st.m_mainMenuSystemViewer = some viewer) :
    ∀ (l : List (EntityID × OrbitComponent)) (c : Call), c ∈ drawPathsLoop st l →
      ∀ (e : EntityID) (alpha : ℚ), c.pathAlpha = some (e, alpha) →
        ∃ bodyArData, viewer.finBodyAr e = some bodyArData ∧
          alpha = interpolatedAlpha bodyArData.hoverTime := by
  intro l
  induction l with
  | nil => intro c hc; simp [drawPathsLoop] at hc
  | cons a rest ih =>
    intro c hc e alpha hpa
    cases har : viewer.finBodyAr a.1 with
    | none =>
      simp only [drawPathsLoop, hv, har, List.mem_cons] at hc
      rcases hc with rfl | hc
      · simp [Call.pathAlpha] at hpa
      · exact ih c hc e alpha hpa
    | some bodyArData =>
      simp only [drawPathsLoop, hv, har, List.mem_cons] at hc
      rcases hc with rfl | rfl | hc
      · simp [Call.pathAlpha] at hpa
      · rw [pathAlpha_drawPathCall] at hpa
        simp only [Option.some.injEq, Prod.mk.injEq] at hpa
        exact ⟨bodyArData, by rw [← hpa.1]; exact har, hpa.2.symm⟩
      · exact ih c hc e alpha hpa

theorem mem_drawPaths_path (st : SpaceSystemRenderStage) (c : Call) (hc : c ∈ drawPaths st)
    (hp : c.isDrawPath = true) :
    c ∈ drawPathsLoop st st.m_spaceSystem.m_orbitCT.components := by
  unfold drawPaths at hc
  simp only [List.mem_append, List.mem_cons, List.mem_singleton, List.not_mem_nil,
    or_false] at hc
  rcases hc with (hc | hc) | hc
  · rcases hc with rfl | rfl | rfl | rfl | rfl <;> simp [Call.isDrawPath, Call.pathAlpha] at hp
  · exact hc
  · rcases hc with rfl | rfl | rfl <;> simp [Call.isDrawPath, Call.pathAlpha] at hp

/-! ## drawHud: results -/

theorem mem_drawHudLoop (nm : Numerics) (st : SpaceSystemRenderStage)
    (viewer : MainMenuSystemViewer) (dt : ℚ) (c : Call) :
    ∀ l : List (EntityID × NamePositionComponent),
      c ∈ drawHudLoop nm st viewer dt l ↔ ∃ it ∈ l, c ∈ drawHudBody nm st viewer dt it := by
  intro l
  induction l with
  | nil => simp [drawHudLoop]
  | cons a rest ih => simp [drawHudLoop, List.mem_append, ih]

/-- The calls of the loop body of `drawHud` for one entry: the lookup, and for
a body with AR data in the frustum the indicator block (when the selector is
below the maximum) and the land selector (when land is selected). -/
theorem mem_drawHudBody (nm : Numerics) (st : SpaceSystemRenderStage)
    (viewer : MainMenuSystemViewer) (dt : ℚ) (it : EntityID × NamePositionComponent)
    (c : Call) :
    c ∈ drawHudBody nm st viewer dt it ↔
      c = Call.finBodyAr it.1 ∨
      ∃ bodyArData, viewer.finBodyAr it.1 = some bodyArData ∧ bodyArData.inFrustum = true ∧
        ((bodyArData.selectorSize < viewer.MAX_SELECTOR_SIZE ∧
          c ∈ drawHudIndicator nm viewer it
            ⟨(st.m_camera.worldToScreenPoint (it.2.position - st.m_camera.getPosition)).x
                * st.m_viewport.1,
              (st.m_camera.worldToScreenPoint (it.2.position - st.m_camera.getPosition)).y
                * st.m_viewport.2⟩
            (st.m_camera.worldToScreenPoint (it.2.position - st.m_camera.getPosition)).z
            (hermite bodyArData.hoverTime)
            (hudTextColor st.m_spaceSystem it.1 (hermite bodyArData.hoverTime))
            bodyArData.selectorSize) ∨
        (bodyArData.isLandSelected = true ∧
          c ∈ drawHudLandSelector nm st dt it bodyArData)) := by
  unfold drawHudBody
  cases har : viewer.finBodyAr it.1 with
  | none => simp
  | some bodyArData =>
    by_cases hf : bodyArData.inFrustum = true
    · by_cases hs : bodyArData.selectorSize < viewer.MAX_SELECTOR_SIZE <;>
        by_cases hl : bodyArData.isLandSelected = true <;>
        simp [hf, hs, hl]
    · simp [hf]

theorem drawHud_calls (nm : Numerics) (st : SpaceSystemRenderStage)
    (viewer : MainMenuSystemViewer) (hv : st.m_mainMenuSystemViewer = some viewer) :
    (drawHud nm st).2 =
      (if st.m_spriteBatch.isNone = true then
        [Call.newSpriteBatch true true, Call.newSpriteFont "Fonts/orbitron_bold-webfont.ttf" 32]
      else [])
      ++ [Call.spriteBatchBegin]
      ++ drawHudLoop nm st viewer (st.dt + 0.01) st.m_spaceSystem.m_namePositionCT.components
      ++ [Call.spriteBatchEnd, Call.renderBatch, Call.depthStateSet DepthState.FULL] := by
  simp [drawHud, hv]

theorem mem_drawHud_of_loop (nm : Numerics) (st : SpaceSystemRenderStage)
    (viewer : MainMenuSystemViewer) (hv : st.m_mainMenuSystemViewer = some viewer) (c : Call)
    (hc : c ∈ drawHudLoop nm st viewer (st.dt + 0.01)
      st.m_spaceSystem.m_namePositionCT.components) :
    c ∈ (drawHud nm st).2 := by
  rw [drawHud_calls nm st viewer hv]
  simp only [List.mem_append]
  exact Or.inl (Or.inr hc)

theorem mem_loop_of_drawHud (nm : Numerics) (st : SpaceSystemRenderStage)
    (viewer : MainMenuSystemViewer) (hv : st.m_mainMenuSystemViewer = some viewer) (c : Call)
    (hc : c ∈ (drawHud nm st).2) (hs : c.isSpriteDraw = true) :
    c ∈ drawHudLoop nm st viewer (st.dt + 0.01)
      st.m_spaceSystem.m_namePositionCT.components := by
  rw [drawHud_calls nm st viewer hv] at hc
  simp only [List.mem_append, List.mem_cons, List.mem_singleton, List.not_mem_nil,
    or_false] at hc
  rcases hc with ((hc | hc) | hc) | hc
  · by_cases hb : st.m_spriteBatch.isNone = true
    · simp only [hb, if_true, List.mem_cons, List.mem_singleton, List.not_mem_nil,
        or_false] at hc
      rcases hc with rfl | rfl <;> simp [Call.isSpriteDraw] at hs
    · simp [hb] at hc
  · subst hc
    simp [Call.isSpriteDraw] at hs
  · exact hc
  · rcases hc with rfl | rfl | rfl <;> simp [Call.isSpriteDraw] at hs

/-- What a call of the indicator block of entry `it` is. -/
theorem mem_drawHudIndicator (nm : Numerics) (viewer : MainMenuSystemViewer)
    (it : EntityID × NamePositionComponent) (xy : F32v2) (depth interpolator : ℚ)
    (textColor : ColorRGBA8) (selectorSize : ℚ) (c : Call)
    (hc : c ∈ drawHudIndicator nm viewer it xy depth interpolator textColor selectorSize) :
    c.isSpriteDraw = true ∧ c.spriteEntity = some it.1 ∧
    c.textTint = some (it.1, textColor) := by
  unfold drawHudIndicator at hc
  simp only [List.mem_cons, List.mem_singleton, List.not_mem_nil, or_false] at hc
  rcases hc with rfl | rfl <;> simp [Call.isSpriteDraw, Call.spriteEntity, Call.textTint]

/-- What a call of the land-selector block of entry `it` is. -/
theorem mem_drawHudLandSelector (nm : Numerics) (st : SpaceSystemRenderStage) (dt : ℚ)
    (it : EntityID × NamePositionComponent) (bodyArData : BodyArData) (c : Call)
    (hc : c ∈ drawHudLandSelector nm st dt it bodyArData) :
    c.isSpriteDraw = true ∧ c.spriteEntity = some it.1 ∧ c.textTint = none ∧
    c.indicatorEntity = none ∧ c.stringEntity = none := by
  unfold drawHudLandSelector at hc
  simp only [List.mem_cons, List.mem_singleton, List.not_mem_nil, or_false] at hc
  subst hc
  simp [Call.isSpriteDraw, Call.spriteEntity, Call.textTint, Call.indicatorEntity,
    Call.stringEntity]

theorem isSpriteDraw_of_spriteEntity (c : Call) (e : EntityID)
    (h : c.spriteEntity = some e) : c.isSpriteDraw = true := by
  cases c <;> simp [Call.spriteEntity] at h <;> rfl

theorem spriteEntity_of_textTint (c : Call) (e : EntityID) (col : ColorRGBA8)
    (h : c.textTint = some (e, col)) : c.spriteEntity = some e := by
  cases c <;> simp [Call.textTint] at h
  all_goals simp [Call.spriteEntity, h.1]

theorem spriteEntity_of_indicatorEntity (c : Call) (e : EntityID)
    (h : c.indicatorEntity = some e) : c.spriteEntity = some e := by
  cases c <;> simp [Call.indicatorEntity] at h
  simp [Call.spriteEntity, h]

theorem spriteEntity_of_stringEntity (c : Call) (e : EntityID)
    (h : c.stringEntity = some e) : c.spriteEntity = some e := by
  cases c <;> simp [Call.stringEntity] at h
  simp [Call.spriteEntity, h]

/-- Every sprite-batch draw of `drawHud` for entity `e` comes from the loop body
of an entry of entity `e` that has AR data in the frustum; a draw of the
indicator block moreover needs a selector below the maximum and carries the
colour `hudTextColor`. -/
theorem drawHud_sprite_origin (nm : Numerics) (st : SpaceSystemRenderStage)
    (viewer : MainMenuSystemViewer) (hv : st.m_mainMenuSystemViewer = some viewer) (c : Call)
    (hc : c ∈ (drawHud nm st).2) (e : EntityID) (he : c.spriteEntity = some e) :
    ∃ bodyArData, viewer.finBodyAr e = some bodyArData ∧ bodyArData.inFrustum = true ∧
      ((bodyArData.selectorSize < viewer.MAX_SELECTOR_SIZE ∧
          c.textTint = some (e, hudTextColor st.m_spaceSystem e (hermite bodyArData.hoverTime)))
        ∨ (bodyArData.isLandSelected = true ∧ c.textTint = none ∧ c.indicatorEntity = none ∧
          c.stringEntity = none)) := by
  have hloop := mem_loop_of_drawHud nm st viewer hv c hc (isSpriteDraw_of_spriteEntity c e he)
  obtain ⟨it, _, hbody⟩ := (mem_drawHudLoop nm st viewer _ c _).1 hloop
  rcases (mem_drawHudBody nm st viewer _ it c).1 hbody with rfl | ⟨ar, har, hf, hcase⟩
  · simp [Call.spriteEntity] at he
  · rcases hcase with ⟨hs, hin⟩ | ⟨hl, hin⟩
    · obtain ⟨_, h2, h3⟩ := mem_drawHudIndicator _ _ _ _ _ _ _ _ _ hin
      rw [h2] at he
      simp only [Option.some.injEq] at he
      subst he
      exact ⟨ar, har, hf, Or.inl ⟨hs, h3⟩⟩
    · obtain ⟨_, h2, h3, h4, h5⟩ := mem_drawHudLandSelector _ _ _ _ _ _ hin
      rw [h2] at he
      simp only [Option.some.injEq] at he
      subst he
      exact ⟨ar, har, hf, Or.inr ⟨hl, h3, h4, h5⟩⟩

/-- C6: with a viewer active, for an entity whose AR lookup `finBodyAr` is
absent, `drawPaths` issues no `drawPath` call and `drawHud` issues no indicator,
text or land-selector draw for that entity. -/
theorem no_ar_data_not_drawn (nm : Numerics) (st : SpaceSystemRenderStage)
    (viewer : MainMenuSystemViewer) (e : EntityID)
    (hv : st.m_mainMenuSystemViewer = some viewer) (har : viewer.finBodyAr e = none) :
    (∀ c ∈ drawPaths st, ∀ alpha : ℚ, c.pathAlpha ≠ some (e, alpha)) ∧
    (∀ c ∈ (drawHud nm st).2, c.spriteEntity ≠ some e) := by
  constructor
  · intro c hc alpha hpa
    have hp : c.isDrawPath = true := by simp [Call.isDrawPath, hpa]
    obtain ⟨ar, h1, _⟩ :=
      drawPathsLoop_tracked st viewer hv _ c (mem_drawPaths_path st c hc hp) e alpha hpa
    rw [har] at h1
    exact Option.noConfusion h1
  · intro c hc he
    obtain ⟨ar, h1, _⟩ := drawHud_sprite_origin nm st viewer hv c hc e he
    rw [har] at h1
    exact Option.noConfusion h1

/-- Witness for C6: the star (entity 2) of the sample stage has an orbit and a
name/position component and no AR data. -/
theorem no_ar_data_not_drawn_witness :
    (Sample.stage (some (Sample.viewer 1 20))).m_mainMenuSystemViewer =
      some (Sample.viewer 1 20) ∧
    (Sample.viewer 1 20).finBodyAr 2 = none ∧
    (∀ c ∈ drawPaths (Sample.stage (some (Sample.viewer 1 20))), ∀ alpha : ℚ,
      c.pathAlpha ≠ some (2, alpha)) ∧
    (∀ c ∈ (drawHud Sample.numerics (Sample.stage (some (Sample.viewer 1 20)))).2,
      c.spriteEntity ≠ some 2) :=
  ⟨rfl, rfl, no_ar_data_not_drawn Sample.numerics (Sample.stage (some (Sample.viewer 1 20)))
    (Sample.viewer 1 20) 2 rfl rfl⟩

theorem drawHud_body_calls (nm : Numerics) (st : SpaceSystemRenderStage)
    (viewer : MainMenuSystemViewer) (hv : st.m_mainMenuSystemViewer = some viewer)
    (it : EntityID × NamePositionComponent)
    (hit : it ∈ st.m_spaceSystem.m_namePositionCT.components) (c : Call)
    (hc : c ∈ drawHudBody nm st viewer (st.dt + 0.01) it) : c ∈ (drawHud nm st).2 :=
  mem_drawHud_of_loop nm st viewer hv c ((mem_drawHudLoop nm st viewer _ c _).2 ⟨it, hit, hc⟩)

/-- C7: in `drawHud` with a viewer active, for every entry of the name/position
table whose body has AR data and is in the frustum, an indicator draw for the
body is issued if and only if its selector size is strictly below
`MAX_SELECTOR_SIZE`, and likewise a name-text draw; in either case the AR lookup
for the body is made. -/
theorem drawHud_indicator_iff (nm : Numerics) (st : SpaceSystemRenderStage)
    (viewer : MainMenuSystemViewer) (it : EntityID × NamePositionComponent)
    (bodyArData : BodyArData) (hv : st.m_mainMenuSystemViewer = some viewer)
    (hit : it ∈ st.m_spaceSystem.m_namePositionCT.components)
    (har : viewer.finBodyAr it.1 = some bodyArData) (hf : bodyArData.inFrustum = true) :
    ((∃ c ∈ (drawHud nm st).2, c.indicatorEntity = some it.1) ↔
      bodyArData.selectorSize < viewer.MAX_SELECTOR_SIZE) ∧
    ((∃ c ∈ (drawHud nm st).2, c.stringEntity = some it.1) ↔
      bodyArData.selectorSize < viewer.MAX_SELECTOR_SIZE) ∧
    Call.finBodyAr it.1 ∈ (drawHud nm st).2 := by
  have hback : ∀ c ∈ (drawHud nm st).2, c.spriteEntity = some it.1 →
      (c.indicatorEntity = some it.1 ∨ c.stringEntity = some it.1) →
      bodyArData.selectorSize < viewer.MAX_SELECTOR_SIZE := by
    intro c hc he hkind
    obtain ⟨ar, h1, _, hcase⟩ := drawHud_sprite_origin nm st viewer hv c hc it.1 he
    rw [har] at h1
    simp only [Option.some.injEq] at h1
    subst h1
    rcases hcase with ⟨hs, _⟩ | ⟨_, _, h4, h5⟩
    · exact hs
    · rcases hkind with hk | hk
      · rw [h4] at hk; exact Option.noConfusion hk
      · rw [h5] at hk; exact Option.noConfusion hk
  have hfwd : bodyArData.selectorSize < viewer.MAX_SELECTOR_SIZE →
      ∀ c ∈ drawHudIndicator nm viewer it
        ⟨(st.m_camera.worldToScreenPoint (it.2.position - st.m_camera.getPosition)).x
            * st.m_viewport.1,
          (st.m_camera.worldToScreenPoint (it.2.position - st.m_camera.getPosition)).y
            * st.m_viewport.2⟩
        (st.m_camera.worldToScreenPoint (it.2.position - st.m_camera.getPosition)).z
        (hermite bodyArData.hoverTime)
        (hudTextColor st.m_spaceSystem it.1 (hermite bodyArData.hoverTime))
        bodyArData.selectorSize, c ∈ (drawHud nm st).2 := by
    intro hs c hc
    exact drawHud_body_calls nm st viewer hv it hit c
      ((mem_drawHudBody nm st viewer _ it c).2 (Or.inr ⟨bodyArData, har, hf, Or.inl ⟨hs, hc⟩⟩))
  refine ⟨⟨?_, ?_⟩, ⟨?_, ?_⟩, ?_⟩
  · rintro ⟨c, hc, he⟩
    exact hback c hc (spriteEntity_of_indicatorEntity c _ he) (Or.inl he)
  · intro hs
    refine ⟨_, hfwd hs _ (List.mem_cons_self _ _), ?_⟩
    simp [Call.indicatorEntity]
  · rintro ⟨c, hc, he⟩
    exact hback c hc (spriteEntity_of_stringEntity c _ he) (Or.inr he)
  · intro hs
    refine ⟨_, hfwd hs _ (List.mem_cons_of_mem _ (List.mem_cons_self _ _)), ?_⟩
    simp [Call.stringEntity]
  · exact drawHud_body_calls nm st viewer hv it hit _
      ((mem_drawHudBody nm st viewer _ it _).2 (Or.inl rfl))

/-- Witness for C7: the planet of the sample stage, tracked with a selector of
size 200 against a maximum of 160. -/
theorem drawHud_indicator_iff_witness :
    (Sample.stage (some (Sample.viewer 1 200))).m_mainMenuSystemViewer =
      some (Sample.viewer 1 200) ∧
    ((1, ⟨⟨0, 0, 0⟩, "Planet"⟩) : EntityID × NamePositionComponent) ∈
      (Sample.stage (some (Sample.viewer 1 200))).m_spaceSystem.m_namePositionCT.components ∧
    (Sample.viewer 1 200).finBodyAr 1 = some (Sample.arData 1 200) ∧
    (Sample.arData 1 200).inFrustum = true ∧
    (((∃ c ∈ (drawHud Sample.numerics (Sample.stage (some (Sample.viewer 1 200)))).2,
        c.indicatorEntity = some 1) ↔
      (Sample.arData 1 200).selectorSize < (Sample.viewer 1 200).MAX_SELECTOR_SIZE) ∧
    ((∃ c ∈ (drawHud Sample.numerics (Sample.stage (some (Sample.viewer 1 200)))).2,
        c.stringEntity = some 1) ↔
      (Sample.arData 1 200).selectorSize < (Sample.viewer 1 200).MAX_SELECTOR_SIZE) ∧
    Call.finBodyAr 1 ∈ (drawHud Sample.numerics (Sample.stage (some (Sample.viewer 1 200)))).2) :=
  ⟨rfl, by simp [Sample.stage, Sample.nearSystem, Sample.namePositions], rfl, rfl,
    drawHud_indicator_iff Sample.numerics (Sample.stage (some (Sample.viewer 1 200)))
      (Sample.viewer 1 200) (1, ⟨⟨0, 0, 0⟩, "Planet"⟩) (Sample.arData 1 200) rfl
      (by simp [Sample.stage, Sample.nearSystem, Sample.namePositions]) rfl rfl⟩

theorem findID_ne_zero_iff {T : Type} (eID : EntityID) :
    ∀ (l : List (EntityID × T)) (k : ComponentID), k ≠ 0 →
      (ComponentTable.findID eID l k ≠ 0 ↔ eID ∈ l.map Prod.fst) := by
  intro l
  induction l with
  | nil => intro k _; simp [ComponentTable.findID]
  | cons a rest ih =>
    intro k hk
    by_cases h : a.1 = eID
    · simp [ComponentTable.findID, h, hk]
    · have h2 : ¬ eID = a.1 := fun h3 => h h3.symm
      simp [ComponentTable.findID, h, h2, ih (k + 1) (Nat.succ_ne_zero k)]

/-- An entity has a component in a table exactly when its component id is not
the null id. -/
theorem getComponentID_ne_zero_iff {T : Type} (t : ComponentTable T) (eID : EntityID) :
    t.getComponentID eID ≠ 0 ↔ eID ∈ t.components.map Prod.fst :=
  findID_ne_zero_iff eID t.components 1 one_ne_zero

theorem lerpChannel_zero (a b : Nat) (ha : a < 256) : lerpChannel a b 0 = a := by
  simp [lerpChannel, toUI8, Nat.mod_eq_of_lt ha]

theorem lerpChannel_one (a b : Nat) (hb : b < 256) : lerpChannel a b 1 = b := by
  simp [lerpChannel, toUI8, Nat.mod_eq_of_lt hb]

theorem hermite_zero : hermite 0 = 0 := by norm_num [hermite]

theorem hermite_one : hermite 1 = 1 := by norm_num [hermite]

theorem findID_of_mem {T : Type} (eID : EntityID) (cmp : T) :
    ∀ (l : List (EntityID × T)) (k : Nat), (l.map Prod.fst).Nodup → (eID, cmp) ∈ l →
      ∃ n : Nat, ComponentTable.findID eID l k = n + k ∧ l.get? n = some (eID, cmp) := by
  intro l
  induction l with
  | nil => intro k _ h; simp at h
  | cons a rest ih =>
    intro k hnd hmem
    simp only [List.map_cons, List.nodup_cons] at hnd
    rcases List.mem_cons.1 hmem with h | h
    · subst h
      exact ⟨0, by simp [ComponentTable.findID], rfl⟩
    · have hne : a.1 ≠ eID := by
        intro heq
        apply hnd.1
        rw [heq]
        exact List.mem_map.2 ⟨(eID, cmp), h, rfl⟩
      obtain ⟨n, h1, h2⟩ := ih (k + 1) hnd.2 h
      refine ⟨n + 1, ?_, ?_⟩
      · simp only [ComponentTable.findID, hne, if_false, h1]
        exact (Nat.add_right_comm n 1 k).symm
      · simpa using h2

/-- In a table with one component per entity, the lookup by entity gives the
component registered for the entity. -/
theorem getFromEntity_of_mem {T : Type} (t : ComponentTable T) (eID : EntityID) (cmp : T)
    (hkeys : (t.components.map Prod.fst).Nodup) (hmem : (eID, cmp) ∈ t.components) :
    t.getFromEntity eID = cmp := by
  obtain ⟨n, h1, h2⟩ := findID_of_mem eID cmp t.components 1 hkeys hmem
  simp only [ComponentTable.getFromEntity, ComponentTable.getComponentID, h1,
    ComponentTable.get, h2]

/-- C8: every indicator or name-text draw of `drawHud` is for a body with AR
data in the frustum and carries the colour `hudTextColor` at the interpolation
factor `hermite hoverTime`; that colour is the interpolation from white towards
the path colour of the entity's orbit component when it has one, and towards
Aquamarine otherwise; at factor `hermite 1` towards `(255,0,0,255)` it is
`(255,0,0,255)`, which is not white, and at factor `hermite 0` it is white. -/
theorem drawHud_text_colour :
    (∀ (nm : Numerics) (st : SpaceSystemRenderStage) (viewer : MainMenuSystemViewer)
      (c : Call) (e : EntityID) (col : ColorRGBA8),
      st.m_mainMenuSystemViewer = some viewer → c ∈ (drawHud nm st).2 →
      c.textTint = some (e, col) →
      ∃ bodyArData, viewer.finBodyAr e = some bodyArData ∧ bodyArData.inFrustum = true ∧
        col = hudTextColor st.m_spaceSystem e (hermite bodyArData.hoverTime)) ∧
    (∀ (ss : SpaceSystem) (e : EntityID) (cmp : OrbitComponent) (t : ℚ),
      (ss.m_orbitCT.components.map Prod.fst).Nodup → (e, cmp) ∈ ss.m_orbitCT.components →
      hudTextColor ss e t = ColorRGBA8.lerp color.White cmp.pathColor t) ∧
    (∀ (ss : SpaceSystem) (e : EntityID) (t : ℚ),
      e ∉ ss.m_orbitCT.components.map Prod.fst →
      hudTextColor ss e t = ColorRGBA8.lerp color.White color.Aquamarine t) ∧
    ColorRGBA8.lerp color.White ⟨255, 0, 0, 255⟩ (hermite 1) = ⟨255, 0, 0, 255⟩ ∧
    (⟨255, 0, 0, 255⟩ : ColorRGBA8) ≠ color.White ∧
    (∀ target : ColorRGBA8, ColorRGBA8.lerp color.White target (hermite 0) = color.White) := by
  refine ⟨?_, ?_, ?_, ?_, ?_, ?_⟩
  · intro nm st viewer c e col hv hc htint
    obtain ⟨ar, h1, h2, hcase⟩ :=
      drawHud_sprite_origin nm st viewer hv c hc e (spriteEntity_of_textTint c e col htint)
    refine ⟨ar, h1, h2, ?_⟩
    rcases hcase with ⟨_, h3⟩ | ⟨_, h3, _⟩
    · rw [htint] at h3
      simp only [Option.some.injEq, Prod.mk.injEq, true_and] at h3
      exact h3
    · rw [htint] at h3
      exact Option.noConfusion h3
  · intro ss e cmp t hkeys hmem
    have hid : ss.m_orbitCT.getComponentID e ≠ 0 :=
      (getComponentID_ne_zero_iff _ _).2 (List.mem_map.2 ⟨(e, cmp), hmem, rfl⟩)
    have hget : ss.m_orbitCT.get (ss.m_orbitCT.getComponentID e) = cmp :=
      getFromEntity_of_mem ss.m_orbitCT e cmp hkeys hmem
    simp [hudTextColor, hid, hget]
  · intro ss e t hmem
    have hid : ss.m_orbitCT.getComponentID e = 0 := by
      by_contra h
      exact hmem ((getComponentID_ne_zero_iff _ _).1 h)
    simp [hudTextColor, hid]
  · simp [ColorRGBA8.lerp, color.White, hermite_one, lerpChannel_one]
  · simp [color.White]
  · intro target
    simp [ColorRGBA8.lerp, color.White, hermite_zero, lerpChannel_zero]

/-- Witness for C8: the planet of the sample stage at hover time 1, whose orbit
has the path colour `(255,0,0,255)`, and entity 3, which has no orbit. -/
theorem drawHud_text_colour_witness :
    ((Sample.stage (some (Sample.viewer 1 20))).m_mainMenuSystemViewer =
        some (Sample.viewer 1 20) ∧
      Call.drawIndicator 1 ⟨0, 0⟩ ⟨20, 20⟩ (22 / 7 * 2 + 22 / 7 / 4) ⟨255, 0, 0, 255⟩ 0 ∈
        (drawHud Sample.numerics (Sample.stage (some (Sample.viewer 1 20)))).2 ∧
      ∃ bodyArData, (Sample.viewer 1 20).finBodyAr 1 = some bodyArData ∧
        bodyArData.inFrustum = true ∧
        (⟨255, 0, 0, 255⟩ : ColorRGBA8) =
          hudTextColor Sample.nearSystem 1 (hermite bodyArData.hoverTime)) ∧
    ((Sample.nearSystem.m_orbitCT.components.map Prod.fst).Nodup ∧
      ((1, ⟨2, ⟨255, 0, 0, 255⟩⟩) : EntityID × OrbitComponent) ∈
        Sample.nearSystem.m_orbitCT.components ∧
      hudTextColor Sample.nearSystem 1 (hermite 1) =
        ColorRGBA8.lerp color.White ⟨255, 0, 0, 255⟩ (hermite 1)) ∧
    ((3 : EntityID) ∉ Sample.nearSystem.m_orbitCT.components.map Prod.fst ∧
      hudTextColor Sample.nearSystem 3 (hermite 1) =
        ColorRGBA8.lerp color.White color.Aquamarine (hermite 1)) := by
  have hmem : Call.drawIndicator 1 ⟨0, 0⟩ ⟨20, 20⟩ (22 / 7 * 2 + 22 / 7 / 4)
      ⟨255, 0, 0, 255⟩ 0 ∈
      (drawHud Sample.numerics (Sample.stage (some (Sample.viewer 1 20)))).2 := by
    simp [drawHud, Sample.stage, drawHudLoop, drawHudBody, Sample.viewer, Sample.arData,
      Sample.nearSystem, Sample.namePositions, drawHudIndicator, hudTextColor,
      ComponentTable.getComponentID, ComponentTable.findID, ComponentTable.get, hermite_one,
      ColorRGBA8.lerp, color.White, lerpChannel_one, Sample.camera, Sample.numerics,
      ROTATION_FACTOR, F64v3.sub_def]
    norm_num
  have hnd : (Sample.nearSystem.m_orbitCT.components.map Prod.fst).Nodup := by
    simp [Sample.nearSystem]
  have hin : ((1, ⟨2, ⟨255, 0, 0, 255⟩⟩) : EntityID × OrbitComponent) ∈
      Sample.nearSystem.m_orbitCT.components := by
    simp [Sample.nearSystem]
  have hout : (3 : EntityID) ∉ Sample.nearSystem.m_orbitCT.components.map Prod.fst := by
    simp [Sample.nearSystem]
  exact ⟨⟨rfl, hmem, drawHud_text_colour.1 Sample.numerics
      (Sample.stage (some (Sample.viewer 1 20))) (Sample.viewer 1 20) _ 1 ⟨255, 0, 0, 255⟩
      rfl hmem rfl⟩,
    ⟨hnd, hin, drawHud_text_colour.2.1 Sample.nearSystem 1 _ (hermite 1) hnd hin⟩,
    ⟨hout, drawHud_text_colour.2.2.1 Sample.nearSystem 3 (hermite 1) hout⟩⟩

/-! ## GL state of drawPaths: results -/

theorem glRun_append (fx : GLEffects) (s : GLState) (cs ds : List Call) :
    glRun fx s (cs ++ ds) = glRun fx (glRun fx s cs) ds := by
  simp [glRun, List.foldl_append]

theorem pathDrawsReady_append (fx : GLEffects) :
    ∀ (cs ds : List Call) (s : GLState), pathDrawsReady fx s cs →
      pathDrawsReady fx (glRun fx s cs) ds → pathDrawsReady fx s (cs ++ ds) := by
  intro cs
  induction cs with
  | nil => intro ds s _ h; exact h
  | cons c cs ih =>
    intro ds s h1 h2
    exact ⟨h1.1, ih ds _ h1.2 h2⟩

/-- The recursive reading of "every `drawPath` call is made in a ready state"
gives the reading by prefixes: the state reached after the calls before a
`drawPath` call is ready. -/
theorem pathDrawsReady_split (fx : GLEffects) :
    ∀ (pre : List Call) (s : GLState) (cs : List Call) (c : Call) (post : List Call),
      pathDrawsReady fx s cs → cs = pre ++ c :: post → c.isDrawPath = true →
      (glRun fx s pre).pathReady := by
  intro pre
  induction pre with
  | nil =>
    intro s cs c post h heq hc
    subst heq
    exact h.1 hc
  | cons a pre ih =>
    intro s cs c post h heq hc
    subst heq
    exact ih (glStep fx s a) _ c post h.2 rfl hc

theorem glStep_keeps_ready (fx : GLEffects) (s : GLState) (c : Call)
    (hc : c.isDrawPath = true) (hfx : fx.keepsPathState c) (hs : s.pathReady) :
    (glStep fx s c).pathReady := by
  cases c <;> simp [Call.isDrawPath, Call.pathAlpha] at hc
  obtain ⟨h1, h2, h3⟩ := hfx s
  simp only [glStep, GLState.pathReady]
  exact ⟨h1.trans hs.1, h2.trans hs.2.1, h3.trans hs.2.2⟩

/-- The loop of `drawPaths`, started in a ready state, makes every `drawPath`
call in a ready state and ends in a ready state. -/
theorem drawPathsLoop_ready (fx : GLEffects) (st : SpaceSystemRenderStage)
    (hfx : ∀ c : Call, c.isDrawPath = true → fx.keepsPathState c) :
    ∀ (l : List (EntityID × OrbitComponent)) (s : GLState), s.pathReady →
      pathDrawsReady fx s (drawPathsLoop st l) ∧ (glRun fx s (drawPathsLoop st l)).pathReady := by
  intro l
  induction l with
  | nil => intro s hs; exact ⟨trivial, hs⟩
  | cons a rest ih =>
    intro s hs
    have hpath : ∀ alpha : ℚ,
        pathDrawsReady fx s (drawPathCall st a alpha :: drawPathsLoop st rest) ∧
        (glRun fx s (drawPathCall st a alpha :: drawPathsLoop st rest)).pathReady := by
      intro alpha
      have hstep := glStep_keeps_ready fx s _ (isDrawPath_drawPathCall st a alpha)
        (hfx _ (isDrawPath_drawPathCall st a alpha)) hs
      exact ⟨⟨fun _ => hs, (ih _ hstep).1⟩, (ih _ hstep).2⟩
    have hfin : ∀ cs : List Call, (pathDrawsReady fx s cs ∧ (glRun fx s cs).pathReady) →
        pathDrawsReady fx s (Call.finBodyAr a.1 :: cs) ∧
        (glRun fx s (Call.finBodyAr a.1 :: cs)).pathReady := by
      intro cs h
      exact ⟨⟨fun _ => hs, h.1⟩, h.2⟩
    cases hv : st.m_mainMenuSystemViewer with
    | none =>
      simp only [drawPathsLoop, hv]
      exact hpath _
    | some viewer =>
      cases har : viewer.finBodyAr a.1 with
      | none =>
        simp only [drawPathsLoop, hv, har]
        exact hfin _ (ih s hs)
      | some bodyArData =>
        simp only [drawPathsLoop, hv, har]
        exact hfin _ (hpath _)

/-- C10: whatever `DepthState::set` does to the GL state, and with `drawPath`
leaving program binding, attribute arrays and depth mask alone, `drawPaths`
ends with the colour program unbound, the attribute arrays disabled and depth
writes on, and the calls before any of its `drawPath` calls leave the program
bound, the attribute arrays enabled and depth writes off. -/
theorem drawPaths_gl_scoped (fx : GLEffects) (st : SpaceSystemRenderStage) (s0 : GLState)
    (hfx : ∀ c : Call, c.isDrawPath = true → fx.keepsPathState c) :
    (glRun fx s0 (drawPaths st)).pathRestored ∧
    (∀ (pre : List Call) (c : Call) (post : List Call),
      drawPaths st = pre ++ c :: post → c.isDrawPath = true → (glRun fx s0 pre).pathReady) := by
  have hstart : (glRun fx s0 [Call.depthStateSet DepthState.READ, Call.programUse,
      Call.enableVertexAttribArrays, Call.glDepthMask false, Call.glLineWidth 3]).pathReady := by
    simp [glRun, glStep, GLState.pathReady]
  obtain ⟨hloop1, hloop2⟩ :=
    drawPathsLoop_ready fx st hfx st.m_spaceSystem.m_orbitCT.components _ hstart
  constructor
  · unfold drawPaths
    rw [glRun_append, glRun_append]
    simp [glRun, glStep, GLState.pathRestored]
  · intro pre c post heq hc
    refine pathDrawsReady_split fx pre s0 (drawPaths st) c post ?_ heq hc
    unfold drawPaths
    apply pathDrawsReady_append
    · apply pathDrawsReady_append
      · simp [pathDrawsReady, Call.isDrawPath, Call.pathAlpha]
      · exact hloop1
    · simp [pathDrawsReady, Call.isDrawPath, Call.pathAlpha]

/-- Witness for C10: the sample stage with a viewer, where the orbit of
entity 2 is skipped for missing AR data. -/
theorem drawPaths_gl_scoped_witness :
    (∀ c : Call, c.isDrawPath = true → Sample.glEffects.keepsPathState c) ∧
    (glRun Sample.glEffects Sample.glState
      (drawPaths (Sample.stage (some (Sample.viewer 1 20))))).pathRestored ∧
    (∀ (pre : List Call) (c : Call) (post : List Call),
      drawPaths (Sample.stage (some (Sample.viewer 1 20))) = pre ++ c :: post →
      c.isDrawPath = true → (glRun Sample.glEffects Sample.glState pre).pathReady) :=
  ⟨fun _ _ _ => ⟨rfl, rfl, rfl⟩,
    drawPaths_gl_scoped Sample.glEffects (Sample.stage (some (Sample.viewer 1 20)))
      Sample.glState (fun _ _ _ => ⟨rfl, rfl, rfl⟩)⟩

/-! ## HUD resources: results -/

theorem isAllocation_of_isSpriteDraw (c : Call) (h : c.isSpriteDraw = true) :
    c.isAllocation = false := by
  cases c <;> simp [Call.isSpriteDraw] at h <;> rfl

theorem isAllocation_of_isDrawPath (c : Call) (h : c.isDrawPath = true) :
    c.isAllocation = false := by
  cases c <;> simp [Call.isDrawPath, Call.pathAlpha] at h
  rfl

theorem drawPathsLoop_kinds (st : SpaceSystemRenderStage) :
    ∀ (l : List (EntityID × OrbitComponent)) (c : Call), c ∈ drawPathsLoop st l →
      (∃ e, c = Call.finBodyAr e) ∨ c.isDrawPath = true := by
  intro l
  induction l with
  | nil => intro c hc; simp [drawPathsLoop] at hc
  | cons a rest ih =>
    intro c hc
    cases hv : st.m_mainMenuSystemViewer with
    | none =>
      simp only [drawPathsLoop, hv, List.mem_cons] at hc
      rcases hc with rfl | hc
      · exact Or.inr (isDrawPath_drawPathCall st a _)
      · exact ih c hc
    | some viewer =>
      cases har : viewer.finBodyAr a.1 with
      | none =>
        simp only [drawPathsLoop, hv, har, List.mem_cons] at hc
        rcases hc with rfl | hc
        · exact Or.inl ⟨_, rfl⟩
        · exact ih c hc
      | some bodyArData =>
        simp only [drawPathsLoop, hv, har, List.mem_cons] at hc
        rcases hc with rfl | rfl | hc
        · exact Or.inl ⟨_, rfl⟩
        · exact Or.inr (isDrawPath_drawPathCall st a _)
        · exact ih c hc

theorem drawPaths_no_allocation (st : SpaceSystemRenderStage) :
    (drawPaths st).filter Call.isAllocation = [] := by
  rw [List.filter_eq_nil_iff]
  intro c hc
  unfold drawPaths at hc
  simp only [List.mem_append, List.mem_cons, List.mem_singleton, List.not_mem_nil,
    or_false] at hc
  rcases hc with (hc | hc) | hc
  · rcases hc with rfl | rfl | rfl | rfl | rfl <;> simp [Call.isAllocation]
  · rcases drawPathsLoop_kinds st _ c hc with ⟨e, rfl⟩ | h
    · simp [Call.isAllocation]
    · simp [isAllocation_of_isDrawPath c h]
  · rcases hc with rfl | rfl | rfl <;> simp [Call.isAllocation]

theorem drawBodies_no_allocation (lightPos0 : F64v3) (st : SpaceSystemRenderStage) :
    (drawBodies lightPos0 st).filter Call.isAllocation = [] := by
  unfold drawBodies
  simp only [drawBodiesSpherical_calls, drawBodiesFar_calls, List.filter_append]
  cases st.m_voxelCamera <;>
    simp [List.filter_map, Function.comp_def, Call.isAllocation, List.filter_cons]

theorem drawHudLoop_no_allocation (nm : Numerics) (st : SpaceSystemRenderStage)
    (viewer : MainMenuSystemViewer) (dt : ℚ) (l : List (EntityID × NamePositionComponent)) :
    (drawHudLoop nm st viewer dt l).filter Call.isAllocation = [] := by
  rw [List.filter_eq_nil_iff]
  intro c hc
  obtain ⟨it, _, hbody⟩ := (mem_drawHudLoop nm st viewer dt c l).1 hc
  rcases (mem_drawHudBody nm st viewer dt it c).1 hbody with rfl | ⟨ar, _, _, hcase⟩
  · simp [Call.isAllocation]
  · rcases hcase with ⟨_, hin⟩ | ⟨_, hin⟩
    · simp [isAllocation_of_isSpriteDraw c (mem_drawHudIndicator _ _ _ _ _ _ _ _ _ hin).1]
    · simp [isAllocation_of_isSpriteDraw c (mem_drawHudLandSelector _ _ _ _ _ _ hin).1]

theorem drawHud_no_viewer (nm : Numerics) (st : SpaceSystemRenderStage)
    (hv : st.m_mainMenuSystemViewer = none) : drawHud nm st = (st, []) := by
  simp [drawHud, hv]

theorem drawHud_viewer (nm : Numerics) (st : SpaceSystemRenderStage) :
    (drawHud nm st).1.m_mainMenuSystemViewer = st.m_mainMenuSystemViewer := by
  unfold drawHud
  cases hv : st.m_mainMenuSystemViewer with
  | none => simp [hv]
  | some viewer =>
    by_cases hb : st.m_spriteBatch.isNone = true <;> simp [hb, hv]

/-- On a stage whose sprite batch exists, `drawHud` keeps batch and font and
allocates nothing. -/
theorem drawHud_allocated (nm : Numerics) (st : SpaceSystemRenderStage)
    (hb : st.m_spriteBatch.isSome = true) :
    (drawHud nm st).1.m_spriteBatch = st.m_spriteBatch ∧
    (drawHud nm st).1.m_spriteFont = st.m_spriteFont ∧
    (drawHud nm st).2.filter Call.isAllocation = [] := by
  cases hv : st.m_mainMenuSystemViewer with
  | none => simp [drawHud_no_viewer nm st hv]
  | some viewer =>
    have hnone : st.m_spriteBatch.isNone = false := by
      cases h : st.m_spriteBatch with
      | none => rw [h] at hb; exact absurd hb (by simp)
      | some b => rfl
    refine ⟨?_, ?_, ?_⟩
    · simp [drawHud, hv, hnone]
    · simp [drawHud, hv, hnone]
    · rw [drawHud_calls nm st viewer hv]
      simp [hnone, List.filter_append, drawHudLoop_no_allocation, Call.isAllocation]

/-- On a stage with a viewer and no sprite batch, `drawHud` allocates the batch
and the font, once each. -/
theorem drawHud_allocates (nm : Numerics) (st : SpaceSystemRenderStage)
    (viewer : MainMenuSystemViewer) (hv : st.m_mainMenuSystemViewer = some viewer)
    (hb : st.m_spriteBatch = none) :
    (drawHud nm st).1.hudReady ∧
    (drawHud nm st).2.filter Call.isAllocation =
      [Call.newSpriteBatch true true, Call.newSpriteFont "Fonts/orbitron_bold-webfont.ttf" 32] := by
  constructor
  · simp [drawHud, hv, hb, SpaceSystemRenderStage.hudReady]
  · rw [drawHud_calls nm st viewer hv]
    simp [hb, List.filter_append, drawHudLoop_no_allocation, Call.isAllocation]

theorem runCall_eq_drawHud (nm : Numerics) (lightPos0 : F64v3) (st : SpaceSystemRenderStage)
    (op : StageCall) :
    (runCall nm lightPos0 st op).1 = (drawHud nm st).1 ∧
    (runCall nm lightPos0 st op).2.filter Call.isAllocation =
      (drawHud nm st).2.filter Call.isAllocation := by
  cases op with
  | draw =>
    simp [runCall, draw, List.filter_append, drawBodies_no_allocation,
      drawPaths_no_allocation]
  | drawHud => simp [runCall]

/-- Once batch and font exist, no sequence of calls replaces them or allocates
again. -/
theorem runCalls_ready (nm : Numerics) (lightPos0 : F64v3) :
    ∀ (ops : List StageCall) (st : SpaceSystemRenderStage), st.hudReady →
      (runCalls nm lightPos0 st ops).1.m_spriteBatch = st.m_spriteBatch ∧
      (runCalls nm lightPos0 st ops).1.m_spriteFont = st.m_spriteFont ∧
      (runCalls nm lightPos0 st ops).2.filter Call.isAllocation = [] := by
  intro ops
  induction ops with
  | nil => intro st _; simp [runCalls]
  | cons op ops ih =>
    intro st hs
    obtain ⟨h1, h2⟩ := runCall_eq_drawHud nm lightPos0 st op
    obtain ⟨k1, k2, k3⟩ := drawHud_allocated nm st hs.1
    have hs2 : (runCall nm lightPos0 st op).1.hudReady := by
      rw [h1]
      exact ⟨by rw [k1]; exact hs.1, by rw [k2]; exact hs.2⟩
    obtain ⟨i1, i2, i3⟩ := ih _ hs2
    simp only [runCalls, List.filter_append]
    refine ⟨?_, ?_, ?_⟩
    · rw [i1, h1, k1]
    · rw [i2, h1, k2]
    · rw [i3, h2, k3]
      rfl

/-- Without a viewer no sequence of calls changes the stage or allocates. -/
theorem runCalls_no_viewer (nm : Numerics) (lightPos0 : F64v3) (st : SpaceSystemRenderStage)
    (hv : st.m_mainMenuSystemViewer = none) :
    ∀ ops : List StageCall,
      (runCalls nm lightPos0 st ops).1 = st ∧
      (runCalls nm lightPos0 st ops).2.filter Call.isAllocation = [] := by
  intro ops
  induction ops with
  | nil => simp [runCalls]
  | cons op ops ih =>
    obtain ⟨h1, h2⟩ := runCall_eq_drawHud nm lightPos0 st op
    rw [drawHud_no_viewer nm st hv] at h1 h2
    simp only [runCalls, List.filter_append]
    rw [h1, h2]
    exact ⟨ih.1, by rw [ih.2]; rfl⟩

theorem runCalls_append (nm : Numerics) (lightPos0 : F64v3) :
    ∀ (ops1 ops2 : List StageCall) (st : SpaceSystemRenderStage),
      (runCalls nm lightPos0 st (ops1 ++ ops2)).1 =
        (runCalls nm lightPos0 (runCalls nm lightPos0 st ops1).1 ops2).1 := by
  intro ops1
  induction ops1 with
  | nil => intro ops2 st; rfl
  | cons op ops ih =>
    intro ops2 st
    simp only [List.cons_append, runCalls]
    exact ih ops2 _

/-- C9 as stated fails: on the sample stage without a viewer, whose HUD is
uninitialized, the first invocation of `drawHud` (and of `draw`) leaves the HUD
uninitialized instead of ready. -/
theorem drawHud_no_viewer_stays_uninitialized :
    (Sample.stage none).hudUninitialized ∧
    ¬ (drawHud Sample.numerics (Sample.stage none)).1.hudReady ∧
    (drawHud Sample.numerics (Sample.stage none)).1.hudUninitialized ∧
    ¬ (draw Sample.numerics ⟨0, 0, 0⟩ (Sample.stage none)).1.hudReady := by
  refine ⟨⟨rfl, rfl⟩, ?_, ⟨rfl, rfl⟩, ?_⟩
  · intro h
    exact absurd h.1 (by simp [drawHud, Sample.stage])
  · intro h
    exact absurd h.1 (by simp [draw, drawHud, Sample.stage])

/-- C9, amended: from the uninitialized HUD state, with a viewer the first
invocation of `drawHud` or `draw` makes the HUD ready, allocating the sprite
batch and the font once each; without a viewer the HUD stays uninitialized and
nothing is allocated; over every sequence of `drawHud`/`draw` calls a ready HUD
stays ready with the same batch and font, and batch and font are allocated at
most once. -/
theorem hud_resources_once (nm : Numerics) (lightPos0 : F64v3) (st : SpaceSystemRenderStage)
    (h0 : st.hudUninitialized) :
    (∀ (viewer : MainMenuSystemViewer) (op : StageCall),
      st.m_mainMenuSystemViewer = some viewer →
      (runCall nm lightPos0 st op).1.hudReady ∧
      (runCall nm lightPos0 st op).2.filter Call.isAllocation =
        [Call.newSpriteBatch true true,
          Call.newSpriteFont "Fonts/orbitron_bold-webfont.ttf" 32]) ∧
    (st.m_mainMenuSystemViewer = none → ∀ ops : List StageCall,
      (runCalls nm lightPos0 st ops).1.hudUninitialized ∧
      (runCalls nm lightPos0 st ops).2.filter Call.isAllocation = []) ∧
    (∀ ops1 ops2 : List StageCall, (runCalls nm lightPos0 st ops1).1.hudReady →
      (runCalls nm lightPos0 st (ops1 ++ ops2)).1.hudReady ∧
      (runCalls nm lightPos0 st (ops1 ++ ops2)).1.m_spriteBatch =
        (runCalls nm lightPos0 st ops1).1.m_spriteBatch ∧
      (runCalls nm lightPos0 st (ops1 ++ ops2)).1.m_spriteFont =
        (runCalls nm lightPos0 st ops1).1.m_spriteFont) ∧
    (∀ ops : List StageCall,
      (runCalls nm lightPos0 st ops).2.filter Call.isAllocation = [] ∨
      (runCalls nm lightPos0 st ops).2.filter Call.isAllocation =
        [Call.newSpriteBatch true true,
          Call.newSpriteFont "Fonts/orbitron_bold-webfont.ttf" 32]) := by
  have hfirst : ∀ (viewer : MainMenuSystemViewer) (op : StageCall),
      st.m_mainMenuSystemViewer = some viewer →
      (runCall nm lightPos0 st op).1.hudReady ∧
      (runCall nm lightPos0 st op).2.filter Call.isAllocation =
        [Call.newSpriteBatch true true,
          Call.newSpriteFont "Fonts/orbitron_bold-webfont.ttf" 32] := by
    intro viewer op hv
    obtain ⟨h1, h2⟩ := runCall_eq_drawHud nm lightPos0 st op
    obtain ⟨k1, k2⟩ := drawHud_allocates nm st viewer hv h0.1
    rw [h1, h2]
    exact ⟨k1, k2⟩
  refine ⟨hfirst, ?_, ?_, ?_⟩
  · intro hv ops
    obtain ⟨h1, h2⟩ := runCalls_no_viewer nm lightPos0 st hv ops
    rw [h1]
    exact ⟨h0, h2⟩
  · intro ops1 ops2 hready
    obtain ⟨h1, h2, _⟩ := runCalls_ready nm lightPos0 ops2 _ hready
    rw [runCalls_append]
    exact ⟨⟨by rw [h1]; exact hready.1, by rw [h2]; exact hready.2⟩, h1, h2⟩
  · intro ops
    cases ops with
    | nil => exact Or.inl rfl
    | cons op ops =>
      cases hv : st.m_mainMenuSystemViewer with
      | none => exact Or.inl (runCalls_no_viewer nm lightPos0 st hv _).2
      | some viewer =>
        obtain ⟨k1, k2⟩ := hfirst viewer op hv
        obtain ⟨_, _, h3⟩ := runCalls_ready nm lightPos0 ops _ k1
        refine Or.inr ?_
        simp only [runCalls, List.filter_append]
        rw [k2, h3]
        rfl

/-- Witness for C9: the sample stage with a viewer. -/
theorem hud_resources_once_witness :
    (Sample.stage (some (Sample.viewer 1 20))).hudUninitialized ∧
    (Sample.stage (some (Sample.viewer 1 20))).m_mainMenuSystemViewer =
      some (Sample.viewer 1 20) ∧
    (runCall Sample.numerics ⟨0, 0, 0⟩ (Sample.stage (some (Sample.viewer 1 20)))
      StageCall.drawHud).1.hudReady ∧
    (runCall Sample.numerics ⟨0, 0, 0⟩ (Sample.stage (some (Sample.viewer 1 20)))
      StageCall.drawHud).2.filter Call.isAllocation =
        [Call.newSpriteBatch true true,
          Call.newSpriteFont "Fonts/orbitron_bold-webfont.ttf" 32] :=
  ⟨⟨rfl, rfl⟩, rfl,
    (hud_resources_once Sample.numerics ⟨0, 0, 0⟩ (Sample.stage (some (Sample.viewer 1 20)))
      ⟨rfl, rfl⟩).1 (Sample.viewer 1 20) StageCall.drawHud rfl⟩

end SoA
